import Mathlib

/-!
Verification of the content caching and scheduling engine of the
`tian_free` Home Assistant integration (`custom_components/tian_free/`).

The development shallowly embeds the relevant parts of `sensor.py`:

* the JSON payloads handled by the sensors (`Json`),
* `BaseTianSensor._fetch_api_data` (outcome classification of one fetch),
* `BaseTianSensor._fetch_cached_data` (TTL-guarded get-or-refresh),
* the per-sensor `async_update` failure/retry handling,
* `TianTimeSlotContentSensor._generate_time_slots` and
  `_get_current_time_slot` (day-partition resolver),
* `TianScrollingContentSensor._update_scrolling_content` (rotation),
* the presentation helpers `_format_line_breaks`, `_format_plain_breaks`,
  `_remove_emoji`, `_extract_result`, `_get_time_slot_content` and
  `_get_content_by_type`.

Timestamps are integers (epoch seconds / minutes of day); wall-clock
reading, logging and the Home Assistant entity plumbing are external
inputs of the embedded functions.
-/

/-! ## JSON values

A Python/JSON value as handled by the integration.  Objects are
association lists (Python `dict`s preserve insertion order and have
unique keys at every call site modelled here). -/

inductive Json where
  | null : Json
  | bool : Bool → Json
  | num : Int → Json
  | str : String → Json
  | arr : List Json → Json
  | obj : List (String × Json) → Json
deriving Repr

/-- Python truthiness (`if data:`) of a JSON value: `None`, `False`, `0`,
empty string, empty list and empty dict are falsy. -/
def Json.truthy : Json → Bool
  | .null => false
  | .bool b => b
  | .num n => n != 0
  | .str s => !s.isEmpty
  | .arr xs => !xs.isEmpty
  | .obj fs => !fs.isEmpty

/-- Python `d.get(k)` on a dict: the value of the first binding of `k`,
or `None` (here `none`) when absent.  On a non-dict value the source
would raise `AttributeError`; every such call site modelled with this
helper only ever receives dicts (see the comments at those sites), so
the `none` returned here for non-objects marks an unreachable state. -/
def jget (j : Json) (k : String) : Option Json :=
  match j with
  | .obj fs =>
    match fs.find? (fun p => p.1 == k) with
    | some p => some p.2
    | none => none
  | _ => none

/-- Python `d.get(k, dflt)`. -/
def jgetD (j : Json) (k : String) (dflt : Json) : Json :=
  (jget j k).getD dflt

/-- Truthiness of an optional value (`None` when absent). -/
def Json.truthyD : Option Json → Bool
  | some v => v.truthy
  | none => false

/-- Python `d.get(k, dflt)` restricted to the string payload fields the
sensors read.  The integration's API payloads carry strings in these
fields; a non-string value (never produced by the modelled endpoints)
falls back to the default. -/
def jstrD (j : Json) (k : String) (dflt : String) : String :=
  match jget j k with
  | some (.str s) => s
  | _ => dflt

/-- Python `data.get("code") == 200` (`None == 200` and `"200" == 200`
are false in Python). -/
def codeIs200 (o : Option Json) : Bool :=
  match o with
  | some (.num n) => n == 200
  | _ => false

/-! ## ContentFetcher: `BaseTianSensor._fetch_api_data`

The network interaction is an external capability; its possible
outcomes are a decoded HTTP response (status plus an optionally
decodable JSON body), a timeout, or a transport error (connection
failure or any other exception raised inside the `try` block). -/

inductive HttpResult where
  | response (status : Nat) (body : Option Json)
  | timeout
  | transportError
deriving Repr

/-- `BaseTianSensor._fetch_api_data`: returns the decoded payload when
the HTTP status is 200 and the body carries application code 200;
every other outcome (application codes 130, 100 and others, HTTP-level
failure, undecodable or non-object body, timeout, transport error) is
logged and absorbed to `None`.  A non-object body makes
`data.get("code")` raise `AttributeError`, which the `except Exception`
clause also converts to `None`. -/
def fetch_api_data (r : HttpResult) : Option Json :=
  match r with
  | .response status body =>
    if status = 200 then
      match body with
      | some d =>
        match d with
        | .obj _ => if codeIs200 (jget d ("code")) then some d else none
        | _ => none
      | none => none
    else none
  | .timeout => none
  | .transportError => none

/-- Classification predicate: the fetch outcomes `_fetch_api_data`
answers with a payload, i.e. a decodable HTTP-200 object body whose
application `code` is 200. -/
def isAppSuccess (r : HttpResult) : Bool :=
  match r with
  | .response status (some d) =>
    status == 200 &&
      (match d with
       | .obj _ => codeIs200 (jget d ("code"))
       | _ => false)
  | _ => false

/-! ## ContentCache: `BaseTianSensor._fetch_cached_data`

The process-wide dicts `_data_cache` / `_cache_timestamp` hold, per
cache key, the last successful payload and its fetch time.  The two
dicts are only ever written together, so one `Option CacheEntry` per
key models them.  The embedding is per-key: `_fetch_cached_data` for a
given key reads and writes only that key's entry. -/

def CACHE_TIMEOUT : Int := 43200

structure CacheEntry where
  payload : Json
  fetchedAt : Int
deriving Repr

/-- Result of one `_fetch_cached_data` call for one key: the key's
entry afterwards, the returned value, and whether `fetch_func` was
awaited (used to count network calls). -/
structure FetchCachedResult where
  entry : Option CacheEntry
  ret : Option Json
  fetched : Bool
deriving Repr

/-- The refresh arm of `_fetch_cached_data`: `data = await fetch_func()`;
`if data and data.get("code") == 200:` store `(data, now)`; the call
returns `data` unconditionally.  (`fetch_func` is always
`_fetch_api_data` composed with a URL, so `data` is `None` or a
non-empty dict with code 200; on a non-dict truthy `data` the source's
`data.get` would raise, an unreachable state here.) -/
def refresh_step (entry : Option CacheEntry) (now : Int) (fetchResult : Option Json) :
    FetchCachedResult :=
  match fetchResult with
  | some d =>
    if d.truthy && codeIs200 (jget d ("code")) then
      { entry := some { payload := d, fetchedAt := now }, ret := some d, fetched := true }
    else
      { entry := entry, ret := some d, fetched := true }
  | none => { entry := entry, ret := none, fetched := true }

/-- `BaseTianSensor._fetch_cached_data` for one cache key: cached entry
younger than `CACHE_TIMEOUT` seconds is returned without fetching;
otherwise the fetch result is processed by `refresh_step`. -/
def fetch_cached_data (entry : Option CacheEntry) (now : Int) (fetchResult : Option Json) :
    FetchCachedResult :=
  match entry with
  | some e =>
    if now - e.fetchedAt < CACHE_TIMEOUT then
      { entry := some e, ret := some e.payload, fetched := false }
    else
      refresh_step (some e) now fetchResult
  | none => refresh_step none now fetchResult

/-! ## Per-sensor update routines (failure and retry handling)

Each sensor's `async_update` first calls `_fetch_cached_data`; the
claims about retry concern what happens to the sensor's availability,
state string and `_retry_count` depending on the truthiness of the
returned data.  `UnitState` carries exactly those fields; the second
component of each step is the delay (in seconds) of the single retry
scheduled via `hass.loop.call_later`, or `none` when no retry is
scheduled. -/

structure UnitState where
  available : Bool
  state : String
  retryCount : Nat
deriving Repr, DecidableEq

def MAX_RETRIES : Nat := 2

def API_FAIL_TEXT : String := "API请求失败"

/-- `TianJokeSensor.async_update`, reduced to availability/retry
bookkeeping.  On truthy data: success attributes are published, the
state becomes the current date and `_retry_count` resets to 0.  On
falsy data: while `_retry_count < _max_retries` the counter is
incremented and one retry of `async_update` is scheduled after 1800
seconds (availability and state untouched); once retries are
exhausted the sensor becomes unavailable with the dedicated failure
state. -/
def jokeUpdate (u : UnitState) (currentDate : String) (data : Option Json) :
    UnitState × Option Nat :=
  if Json.truthyD data then
    ({ available := true, state := currentDate, retryCount := 0 }, none)
  else if u.retryCount < MAX_RETRIES then
    ({ u with retryCount := u.retryCount + 1 }, some 1800)
  else
    ({ u with available := false, state := API_FAIL_TEXT }, none)

/-- `TianMorningSensor.async_update`, same failure/retry handling as
the joke sensor (the source duplicates the logic verbatim). -/
def morningUpdate (u : UnitState) (currentDate : String) (data : Option Json) :
    UnitState × Option Nat :=
  if Json.truthyD data then
    ({ available := true, state := currentDate, retryCount := 0 }, none)
  else if u.retryCount < MAX_RETRIES then
    ({ u with retryCount := u.retryCount + 1 }, some 1800)
  else
    ({ u with available := false, state := API_FAIL_TEXT }, none)

/-- Failure handling shared verbatim by `TianEveningSensor`,
`TianPoetrySensor`, `TianSongCiSensor`, `TianYuanQuSensor`,
`TianHistorySensor`, `TianSentenceSensor`, `TianCoupletSensor` and
`TianMaximSensor`: truthy data publishes success (state = current
date, `_retry_count` untouched — these classes never write it); falsy
data immediately marks the sensor unavailable, keeps the date as
state, and schedules no retry. -/
def nonRetryingUpdate (u : UnitState) (currentDate : String) (data : Option Json) :
    UnitState × Option Nat :=
  if Json.truthyD data then
    ({ available := true, state := currentDate, retryCount := u.retryCount }, none)
  else
    ({ u with available := false, state := currentDate }, none)

/-- `TianEveningSensor.async_update` failure handling (one of the
eight non-retrying sensors). -/
def eveningUpdate : UnitState → String → Option Json → UnitState × Option Nat :=
  nonRetryingUpdate

/-- `TianPoetrySensor.async_update` failure handling. -/
def poetryUpdate : UnitState → String → Option Json → UnitState × Option Nat :=
  nonRetryingUpdate

/-- `TianHistorySensor.async_update` failure handling. -/
def historyUpdate : UnitState → String → Option Json → UnitState × Option Nat :=
  nonRetryingUpdate

/-! ## TimeSlotResolver

`TianTimeSlotContentSensor._generate_time_slots` builds, from the
enabled content types, an insertion-ordered dict of slots; with
distinct enabled types (guaranteed by the config flow's multi-select)
that dict is the list below.  `_get_current_time_slot` scans it in
insertion order and returns the first matching slot. -/

structure TimeSlot where
  apiType : String
  startMin : Nat
  endMin : Nat
  slotName : String
deriving Repr, DecidableEq

/-- The ten content types of the integration (the closed catalog, also
the keys of `sensor_classes` in `async_setup_entry`). -/
def ALL_API_TYPES : List String :=
  ["joke", "morning", "evening", "poetry", "songci",
   "yuanqu", "history", "sentence", "couplet", "maxim"]

/-- Modelled from the spec: `API_TYPES` is imported by `sensor.py` and
`config_flow.py` from `const.py`, but the repository's `const.py` does
not define it.  Per the spec each content type has a display name;
`_generate_time_slots` uses only `API_TYPES[api_type]["name"]`, and
the names coincide with the `_attr_name` of the per-type sensors. -/
def api_type_name (ct : String) : String :=
  if ct = "joke" then "每日笑话"
  else if ct = "poetry" then "唐诗鉴赏"
  else if ct = "songci" then "最美宋词"
  else if ct = "yuanqu" then "精选元曲"
  else if ct = "history" then "简说历史"
  else if ct = "sentence" then "古籍名句"
  else if ct = "couplet" then "经典对联"
  else if ct = "maxim" then "英文格言"
  else ct

/-- The two fixed boundary slots: 05:00–07:59 morning and the
midnight-wrapping 23:00–04:59 evening. -/
def fixed_slots : List TimeSlot :=
  [{ apiType := "morning", startMin := 5*60, endMin := 7*60+59, slotName := "早安时段" },
   { apiType := "evening", startMin := 23*60, endMin := 4*60+59, slotName := "晚安时段" }]

/-- The i-th slot of the `enumerate` loop of `_generate_time_slots`:
`slot_duration = 900 // n` where `n` is the number of enabled optional
types (the remaining minutes 08:00–22:59 are `(22*60+59) - 8*60 + 1 =
900`); `current_start` advances by `slot_duration` per iteration, so
the i-th optional slot starts at `480 + i * slot_duration`; the last
optional slot always ends at 22:59 (minute 1379). -/
def optional_slot (optionalApis : List String) (nameOf : String → String) (i : Nat) : TimeSlot :=
  { apiType := optionalApis.getD i ""
    startMin := 480 + i * (900 / optionalApis.length)
    endMin :=
      if i = optionalApis.length - 1 then 22*60+59
      else 480 + i * (900 / optionalApis.length) + (900 / optionalApis.length) - 1
    slotName := nameOf (optionalApis.getD i "") ++ "时段" }

/-- `TianTimeSlotContentSensor._generate_time_slots`: the two fixed
slots, followed (when optional types are enabled) by one
`optional_slot` per enabled optional type in list order. -/
def generate_time_slots (enabled : List String) (nameOf : String → String) : List TimeSlot :=
  let optionalApis := enabled.filter (fun a => a ≠ "morning" && a ≠ "evening")
  if optionalApis.isEmpty then fixed_slots
  else fixed_slots ++ (List.range optionalApis.length).map (optional_slot optionalApis nameOf)

/-- Matching of a minute of day against a `(start, end)` pair, exactly
as in `_get_current_time_slot`: a normal slot (`start ≤ end`) matches
when `start ≤ minute ≤ end`, a wrap-around slot (`start > end`)
matches when `minute ≥ start` or `minute ≤ end`. -/
def interval_matches (iv : Nat × Nat) (m : Nat) : Bool :=
  if iv.1 ≤ iv.2 then iv.1 ≤ m && m ≤ iv.2
  else m ≥ iv.1 || m ≤ iv.2

def slot_interval (s : TimeSlot) : Nat × Nat := (s.startMin, s.endMin)

def slot_matches (s : TimeSlot) (m : Nat) : Bool :=
  interval_matches (slot_interval s) m

/-- `TianTimeSlotContentSensor._get_current_time_slot`: first matching
slot in insertion order, else the synthetic default slot. -/
def get_current_time_slot (slots : List TimeSlot) (m : Nat) : String × String :=
  match slots.find? (fun s => slot_matches s m) with
  | some s => (s.apiType, s.slotName)
  | none => ("default", "默认时段")

/-! ## ContentPresenter helpers: line-break formatting

`_format_line_breaks` / `_format_plain_breaks` (identical in
`TianTimeSlotContentSensor` and `TianScrollingContentSensor`) are
chains of Python `str.replace` calls followed by `str.rstrip`.
`replaceL` is Python's `str.replace`: leftmost non-overlapping
occurrences, single pass.  `pyRstrip` is Python's `str.rstrip(chars)`:
it strips trailing characters drawn from the *set* of characters of
its argument. -/

def replaceL (pat rep : List Char) : List Char → List Char
  | [] => []
  | c :: cs =>
    if pat ≠ [] ∧ pat.isPrefixOf (c :: cs) then
      rep ++ replaceL pat rep (cs.drop (pat.length - 1))
    else
      c :: replaceL pat rep cs
termination_by l => l.length
decreasing_by
  · simp [List.length_drop]; omega
  · simp

def pyReplace (s pat rep : String) : String :=
  ⟨replaceL pat.data rep.data s.data⟩

def pyRstrip (s chars : String) : String :=
  ⟨(s.data.reverse.dropWhile (fun c => chars.data.contains c)).reverse⟩

/-- `_format_line_breaks`: `<br>` inserted after each of 。？！,
then `"<br><br>"` collapsed, then `rstrip("<br>")` (a character-set
strip over `{<, b, r, >}`). -/
def format_line_breaks (text : Option String) : String :=
  match text with
  | none => ""
  | some t =>
    pyRstrip
      (pyReplace
        (pyReplace
          (pyReplace
            (pyReplace t ("。") ("。<br>"))
            ("？") ("？<br>"))
          ("！") ("！<br>"))
        ("<br><br>") ("<br>"))
      ("<br>")

/-- `_format_plain_breaks`: the same substitution with `"\n"`, then
`"\n\n"` collapsed, then `rstrip("\n")`. -/
def format_plain_breaks (text : Option String) : String :=
  match text with
  | none => ""
  | some t =>
    pyRstrip
      (pyReplace
        (pyReplace
          (pyReplace
            (pyReplace t ("。") ("。\n"))
            ("？") ("？\n"))
          ("！") ("！\n"))
        ("\n\n") ("\n"))
      ("\n")

/-- The three sentence-ending punctuation marks of the formatters. -/
def punct_mark (c : Char) : Bool :=
  c = '。' || c = '？' || c = '！'

/-- Spec-side insertion (from the claim's words, for the refinement
comparison): the break token inserted after each of 。？！. -/
def spec_break_insert (brk : List Char) (t : List Char) : List Char :=
  t.flatMap (fun c => if punct_mark c then c :: brk else [c])

/-- Spec-side rendering: the insertion with one trailing break trimmed
and the rest of the text otherwise unchanged. -/
def spec_break_rendering (brk : List Char) (t : List Char) : List Char :=
  if brk.isSuffixOf (spec_break_insert brk t) then
    (spec_break_insert brk t).take ((spec_break_insert brk t).length - brk.length)
  else spec_break_insert brk t

def spec_markup_rendering (t : String) : String :=
  ⟨spec_break_rendering (['<', 'b', 'r', '>']) t.data⟩

def spec_plain_rendering (t : String) : String :=
  ⟨spec_break_rendering (['\n']) t.data⟩

/-! ## ContentPresenter helpers: emoji stripping and result extraction -/

/-- The character ranges of the `emoji_pattern` regex in
`_remove_emoji`. -/
def inEmojiBlock (c : Char) : Bool :=
  (0x1F600 ≤ c.toNat && c.toNat ≤ 0x1F64F) ||
  (0x1F300 ≤ c.toNat && c.toNat ≤ 0x1F5FF) ||
  (0x1F680 ≤ c.toNat && c.toNat ≤ 0x1F6FF) ||
  (0x1F1E0 ≤ c.toNat && c.toNat ≤ 0x1F1FF)

/-- `_remove_emoji`: the regex sub deletes every character in the four
ranges. -/
def remove_emoji (s : String) : String :=
  ⟨s.data.filter (fun c => !(inEmojiBlock c))⟩

/-- Spec-side (for C9's amended claim): the four ranges of
`_remove_emoji` extended with U+FE0F (variation selector-16) and
U+2618 — the two codepoints occurring in the history and maxim titles
that the four ranges miss. -/
def inEmojiBlockExt (c : Char) : Bool :=
  inEmojiBlock c || c.toNat == 0xFE0F || c.toNat == 0x2618

def remove_emoji_ext (s : String) : String :=
  ⟨s.data.filter (fun c => !(inEmojiBlockExt c))⟩

/-- `_extract_result` as defined identically in `TianHistorySensor`,
`TianSentenceSensor`, `TianCoupletSensor`, `TianMaximSensor` and
`TianTimeSlotContentSensor` (the latter differs only in logging):
falsy input yields `{}`; otherwise `data.get("result", {})` is
extracted, a non-empty list gives its first element, a dict passes
through, anything else gives `{}`.  On a *truthy non-dict* input the
source's `data.get` raises `AttributeError`; the `none` result models
that raise. -/
def extract_result (data : Json) : Option Json :=
  if !data.truthy then some (Json.obj [])
  else
    match data with
    | .obj _ =>
      let result := jgetD data ("result") (Json.obj [])
      match result with
      | .arr xs =>
        match xs with
        | x :: _ => some x
        | [] => some (Json.obj [])
      | .obj _ => some result
      | _ => some (Json.obj [])
    | _ => none

/-- `TianScrollingContentSensor._extract_result`: falsy input yields
`{}`, a dict passes through unchanged, a (necessarily non-empty,
since truthy) list gives its first element, anything else `{}`.  This
variant never touches `.get`, so it is total. -/
def extract_result_scroll (data : Json) : Json :=
  if !data.truthy then Json.obj []
  else
    match data with
    | .obj _ => data
    | .arr xs =>
      match xs with
      | x :: _ => x
      | [] => Json.obj []
    | _ => Json.obj []

/-! ## ContentPresenter: per-type display content

`Presented` models the seven display fields each presenter branch
builds (the `update_time`/`update_date` attributes are wall-clock
strings supplied by the caller and are not part of the claims). -/

structure Presented where
  title : String
  title2 : String
  subtitle : String
  content1 : String
  content2 : String
  align : String
  subalign : String
deriving Repr, DecidableEq

/-- Python's substring test `sub in s`. -/
def listContainsSub (sub : List Char) : List Char → Bool
  | [] => sub.isEmpty
  | c :: cs => sub.isPrefixOf (c :: cs) || listContainsSub sub cs

def strContains (s sub : String) : Bool :=
  listContainsSub sub.data s.data

/-- Python `lst[0] if lst else {}` (on the values reaching it, always a
list; a non-list would raise, unreachable at the modelled call
sites). -/
def firstOrEmptyObj (j : Json) : Json :=
  match j with
  | .arr (x :: _) => x
  | _ => Json.obj []

/-- `TianTimeSlotContentSensor._get_time_slot_content`: the if/elif
chain over the api type.  Each branch extracts its fields with
defaults; the morning/evening branches enforce the marker-phrase
post-condition; the poetic branches use the two line-break
renderings. -/
def get_time_slot_content (apiType : String) (data : Json) : Presented :=
  if apiType = "morning" then
    let c0 := jstrD (jgetD data ("result") (Json.obj [])) ("content") ("早安！新的一天开始了！")
    let c := if !(strContains c0 ("早安")) then "早安！" ++ c0 else c0
    { title := "🌅早安问候", title2 := "早安问候", subtitle := "",
      content1 := c, content2 := c, align := "left", subalign := "center" }
  else if apiType = "evening" then
    let c0 := jstrD (jgetD data ("result") (Json.obj [])) ("content") ("晚安！好梦！")
    let c := if !(strContains c0 ("晚安")) then c0 ++ "晚安！" else c0
    { title := "🌃晚安问候", title2 := "晚安问候", subtitle := "",
      content1 := c, content2 := c, align := "left", subalign := "center" }
  else if apiType = "joke" then
    let jokeResult := firstOrEmptyObj
      (jgetD (jgetD data ("result") (Json.obj [])) ("list") (Json.arr [Json.obj []]))
    { title := "🌻每日笑话", title2 := "每日笑话",
      subtitle := jstrD jokeResult ("title") ("今日笑话"),
      content1 := jstrD jokeResult ("content") ("暂无笑话内容"),
      content2 := jstrD jokeResult ("title") ("今日笑话") ++ "\n"
        ++ jstrD jokeResult ("content") ("暂无笑话内容"),
      align := "left", subalign := "center" }
  else if apiType = "poetry" then
    let poetryResult := firstOrEmptyObj
      (jgetD (jgetD data ("result") (Json.obj [])) ("list") (Json.arr [Json.obj []]))
    let c := jstrD poetryResult ("content") ("暂无唐诗内容")
    { title := "🔖唐诗鉴赏", title2 := "唐诗鉴赏",
      subtitle := jstrD poetryResult ("author") ("未知作者") ++ " · 《"
        ++ jstrD poetryResult ("title") ("无题") ++ "》",
      content1 := format_line_breaks (some c),
      content2 := jstrD poetryResult ("author") ("未知作者") ++ " · 《"
        ++ jstrD poetryResult ("title") ("无题") ++ "》\n" ++ format_plain_breaks (some c),
      align := "center", subalign := "center" }
  else if apiType = "songci" then
    let songCiResult := jgetD data ("result") (Json.obj [])
    let c := jstrD songCiResult ("content") ("暂无宋词内容")
    { title := "🌼最美宋词", title2 := "最美宋词",
      subtitle := jstrD songCiResult ("source") ("宋词"),
      content1 := format_line_breaks (some c),
      content2 := jstrD songCiResult ("source") ("宋词") ++ "\n" ++ format_plain_breaks (some c),
      align := "center", subalign := "center" }
  else if apiType = "yuanqu" then
    let yuanQuResult := firstOrEmptyObj
      (jgetD (jgetD data ("result") (Json.obj [])) ("list") (Json.arr [Json.obj []]))
    let c := jstrD yuanQuResult ("content") ("暂无元曲内容")
    { title := "🔖精选元曲", title2 := "精选元曲",
      subtitle := jstrD yuanQuResult ("author") ("未知作者") ++ " · 《"
        ++ jstrD yuanQuResult ("title") ("无题") ++ "》",
      content1 := format_line_breaks (some c),
      content2 := jstrD yuanQuResult ("author") ("未知作者") ++ " · 《"
        ++ jstrD yuanQuResult ("title") ("无题") ++ "》\n" ++ format_plain_breaks (some c),
      align := "center", subalign := "center" }
  else if apiType = "history" then
    let historyResult := (extract_result data).getD (Json.obj [])
    { title := "🏷️简说历史", title2 := "简说历史", subtitle := "",
      content1 := jstrD historyResult ("content") ("暂无历史内容"),
      content2 := jstrD historyResult ("content") ("暂无历史内容"),
      align := "left", subalign := "center" }
  else if apiType = "sentence" then
    let sentenceResult := (extract_result data).getD (Json.obj [])
    let c := jstrD sentenceResult ("content") ("暂无名句内容")
    { title := "🌻古籍名句", title2 := "古籍名句",
      subtitle := "《" ++ jstrD sentenceResult ("source") ("古籍") ++ "》",
      content1 := format_line_breaks (some c),
      content2 := "《" ++ jstrD sentenceResult ("source") ("古籍") ++ "》\n"
        ++ format_plain_breaks (some c),
      align := "center", subalign := "center" }
  else if apiType = "couplet" then
    let coupletResult := (extract_result data).getD (Json.obj [])
    { title := "🔖经典对联", title2 := "经典对联", subtitle := "",
      content1 := jstrD coupletResult ("content") ("暂无对联内容"),
      content2 := jstrD coupletResult ("content") ("暂无对联内容"),
      align := "center", subalign := "center" }
  else if apiType = "maxim" then
    let maximResult := (extract_result data).getD (Json.obj [])
    { title := "☘️英文格言", title2 := "英文格言", subtitle := "",
      content1 := "【英文】" ++ jstrD maximResult ("en") ("No maxim available")
        ++ "<br>【中文】" ++ jstrD maximResult ("zh") ("暂无格言"),
      content2 := "【英文】" ++ jstrD maximResult ("en") ("No maxim available")
        ++ "\n【中文】" ++ jstrD maximResult ("zh") ("暂无格言"),
      align := "left", subalign := "center" }
  else
    { title := "时段内容", title2 := "时段内容", subtitle := "",
      content1 := "该时段内容暂不可用", content2 := "该时段内容暂不可用",
      align := "center", subalign := "center" }

/-! ## RotationSequencer: `TianScrollingContentSensor` -/

/-- `SCROLL_CONTENT_TYPES` from `const.py` (note: it contains
`"morning"` and `"evening"`). -/
def SCROLL_CONTENT_TYPES : List String :=
  ["joke", "morning", "evening", "poetry", "songci",
   "yuanqu", "history", "sentence", "couplet", "maxim"]

/-- `TianScrollingContentSensor.__init__`: the rotation list is the
enabled apis filtered by membership in `SCROLL_CONTENT_TYPES` (the
adjacent comment in the source says morning/evening are excluded, but
the filter keeps them). -/
def scroll_content_types_init (enabledApis : List String) : List String :=
  enabledApis.filter (fun a => SCROLL_CONTENT_TYPES.contains a)

/-- `TianScrollingContentSensor._get_content_by_type`: reads the cached
payload (`_data_cache.get(content_type, {})`), returns `None` when the
data or its `result` is falsy, then builds per-type content from
`result`; content types without a branch (notably `"morning"` and
`"evening"`) fall through to `return None`. -/
def get_content_by_type (cache : String → Option Json) (contentType : String) :
    Option Presented :=
  let data := (cache contentType).getD (Json.obj [])
  if !(data.truthy && Json.truthyD (jget data ("result"))) then none
  else
    let result := jgetD data ("result") (Json.obj [])
    if contentType = "joke" then
      let jokeResult := firstOrEmptyObj (jgetD result ("list") (Json.arr [Json.obj []]))
      some { title := "🌻每日笑话", title2 := "每日笑话",
             subtitle := jstrD jokeResult ("title") ("今日笑话"),
             content1 := jstrD jokeResult ("content") ("暂无笑话内容"),
             content2 := jstrD jokeResult ("title") ("今日笑话") ++ "\n"
               ++ jstrD jokeResult ("content") ("暂无笑话内容"),
             align := "left", subalign := "center" }
    else if contentType = "poetry" then
      let poetryResult := firstOrEmptyObj (jgetD result ("list") (Json.arr [Json.obj []]))
      let c := jstrD poetryResult ("content") ("暂无唐诗内容")
      some { title := "🔖唐诗鉴赏", title2 := "唐诗鉴赏",
             subtitle := jstrD poetryResult ("author") ("未知作者") ++ " · 《"
               ++ jstrD poetryResult ("title") ("无题") ++ "》",
             content1 := format_line_breaks (some c),
             content2 := jstrD poetryResult ("author") ("未知作者") ++ " · 《"
               ++ jstrD poetryResult ("title") ("无题") ++ "》\n" ++ format_plain_breaks (some c),
             align := "center", subalign := "center" }
    else if contentType = "songci" then
      let c := jstrD result ("content") ("暂无宋词内容")
      some { title := "🌼最美宋词", title2 := "最美宋词",
             subtitle := jstrD result ("source") ("宋词"),
             content1 := format_line_breaks (some c),
             content2 := jstrD result ("source") ("宋词") ++ "\n" ++ format_plain_breaks (some c),
             align := "center", subalign := "center" }
    else if contentType = "yuanqu" then
      let yuanQuResult := firstOrEmptyObj (jgetD result ("list") (Json.arr [Json.obj []]))
      let c := jstrD yuanQuResult ("content") ("暂无元曲内容")
      some { title := "🔖精选元曲", title2 := "精选元曲",
             subtitle := jstrD yuanQuResult ("author") ("未知作者") ++ " · 《"
               ++ jstrD yuanQuResult ("title") ("无题") ++ "》",
             content1 := format_line_breaks (some c),
             content2 := jstrD yuanQuResult ("author") ("未知作者") ++ " · 《"
               ++ jstrD yuanQuResult ("title") ("无题") ++ "》\n" ++ format_plain_breaks (some c),
             align := "center", subalign := "center" }
    else if contentType = "history" then
      let historyResult := extract_result_scroll result
      some { title := "🏷️简说历史", title2 := "简说历史", subtitle := "",
             content1 := jstrD historyResult ("content") ("暂无历史内容"),
             content2 := jstrD historyResult ("content") ("暂无历史内容"),
             align := "left", subalign := "center" }
    else if contentType = "sentence" then
      let sentenceResult := extract_result_scroll result
      let c := jstrD sentenceResult ("content") ("暂无名句内容")
      some { title := "🌻古籍名句", title2 := "古籍名句",
             subtitle := "《" ++ jstrD sentenceResult ("source") ("古籍") ++ "》",
             content1 := format_line_breaks (some c),
             content2 := "《" ++ jstrD sentenceResult ("source") ("古籍") ++ "》\n"
               ++ format_plain_breaks (some c),
             align := "center", subalign := "center" }
    else if contentType = "couplet" then
      let coupletResult := extract_result_scroll result
      some { title := "🔖经典对联", title2 := "经典对联", subtitle := "",
             content1 := jstrD coupletResult ("content") ("暂无对联内容"),
             content2 := jstrD coupletResult ("content") ("暂无对联内容"),
             align := "center", subalign := "center" }
    else if contentType = "maxim" then
      let maximResult := extract_result_scroll result
      some { title := "☘️英文格言", title2 := "英文格言", subtitle := "",
             content1 := "【英文】" ++ jstrD maximResult ("en") ("No maxim available")
               ++ "<br>【中文】" ++ jstrD maximResult ("zh") ("暂无格言"),
             content2 := "【英文】" ++ jstrD maximResult ("en") ("No maxim available")
               ++ "\n【中文】" ++ jstrD maximResult ("zh") ("暂无格言"),
             align := "left", subalign := "center" }
    else none

/-- The attribute set published by the scrolling sensor on each tick
(minus the wall-clock `update_time`/`update_date`). -/
structure ScrollAttrs where
  title : String
  title2 : String
  subtitle : String
  content1 : String
  content2 : String
  align : String
  subalign : String
  contentType : String
deriving Repr, DecidableEq

/-- `TianScrollingContentSensor._set_default_attributes`. -/
def set_default_attributes (message : String) : ScrollAttrs :=
  { title := "滚动内容", title2 := "滚动内容", subtitle := "",
    content1 := message, content2 := message,
    align := "center", subalign := "center", contentType := "unknown" }

def scroll_attrs_of (pc : Presented) (contentType : String) : ScrollAttrs :=
  { title := pc.title, title2 := pc.title2, subtitle := pc.subtitle,
    content1 := pc.content1, content2 := pc.content2,
    align := pc.align, subalign := pc.subalign, contentType := contentType }

/-- `TianScrollingContentSensor._is_cache_ready` (and, with the enabled
list, `TianTimeSlotContentSensor._is_cache_ready`): every listed
content type must have a truthy cached payload with a truthy
`result`.  (Cached payloads are always dicts — only
`_fetch_cached_data` writes the cache — so `data.get` cannot raise
here.) -/
def is_cache_ready (cache : String → Option Json) (types : List String) : Bool :=
  types.all (fun ct =>
    match cache ct with
    | some d => d.truthy && Json.truthyD (jget d ("result"))
    | none => false)

def SCROLL_WAITING_MSG : String := "等待数据加载，请稍后查看"
def SCROLL_NONE_ENABLED_MSG : String := "没有启用可滚动的内容类型"
def SCROLL_NO_DATA_MSG : String := "无法获取内容数据"

/-- `TianScrollingContentSensor._update_scrolling_content`: one
rotation tick over the (immutable) rotation list and the current
index.  Cache not ready → waiting placeholder, index unchanged; empty
rotation list → "nothing enabled" placeholder; presenter yields
content → publish it and advance the index modulo the list length;
presenter yields `None` → "no data" placeholder, index unchanged. -/
def update_scrolling_content (cache : String → Option Json) (types : List String)
    (idx : Nat) : Nat × ScrollAttrs :=
  if !(is_cache_ready cache types) then
    (idx, set_default_attributes SCROLL_WAITING_MSG)
  else if types.isEmpty then
    (idx, set_default_attributes SCROLL_NONE_ENABLED_MSG)
  else
    match get_content_by_type cache (types.getD idx "") with
    | some pc => ((idx + 1) % types.length, scroll_attrs_of pc (types.getD idx ""))
    | none => (idx, set_default_attributes SCROLL_NO_DATA_MSG)

/-- A concrete cache for the rotation scenario of claim C6: joke,
poetry and history populated with minimal code-200 payloads. -/
def c6DemoCache : String → Option Json := fun ct =>
  if ct = "joke" then
    some (Json.obj [("code", Json.num 200),
      ("result", Json.obj [("list",
        Json.arr [Json.obj [("title", Json.str "T"), ("content", Json.str "C")]])])])
  else if ct = "poetry" then
    some (Json.obj [("code", Json.num 200),
      ("result", Json.obj [("list",
        Json.arr [Json.obj [("title", Json.str "P"), ("author", Json.str "A"),
                            ("content", Json.str "山")]])])])
  else if ct = "history" then
    some (Json.obj [("code", Json.num 200),
      ("result", Json.obj [("content", Json.str "H")])])
  else none

/-! ## Helper lemmas about the fetcher and cache -/

lemma truthy_of_codeIs200 (fs : List (String × Json)) :
    codeIs200 (jget (Json.obj fs) ("code")) = true → (Json.obj fs).truthy = true := by
  intro h
  cases fs with
  | nil => simp [jget, codeIs200] at h
  | cons p ps => simp [Json.truthy]

lemma fetch_api_data_of_success (r : HttpResult) (h : isAppSuccess r = true) :
    ∃ d, fetch_api_data r = some d ∧ d.truthy = true
      ∧ codeIs200 (jget d ("code")) = true := by
  cases r with
  | response status body =>
    cases body with
    | none => simp [isAppSuccess] at h
    | some d =>
      cases d with
      | obj fs =>
        simp only [isAppSuccess, Bool.and_eq_true, beq_iff_eq] at h
        obtain ⟨hs, hc⟩ := h
        refine ⟨Json.obj fs, ?_, truthy_of_codeIs200 fs hc, hc⟩
        simp [fetch_api_data, hs, hc]
      | null => simp [isAppSuccess] at h
      | bool b => simp [isAppSuccess] at h
      | num n => simp [isAppSuccess] at h
      | str s => simp [isAppSuccess] at h
      | arr xs => simp [isAppSuccess] at h
  | timeout => simp [isAppSuccess] at h
  | transportError => simp [isAppSuccess] at h

lemma fetch_api_data_of_failure (r : HttpResult) (h : isAppSuccess r = false) :
    fetch_api_data r = none := by
  cases r with
  | response status body =>
    cases body with
    | none => simp [fetch_api_data]
    | some d =>
      by_cases hs : status = 200
      · subst hs
        cases d with
        | obj fs =>
          simp only [isAppSuccess, Bool.and_eq_true, beq_iff_eq] at h
          simp only [fetch_api_data, if_pos rfl]
          simp at h
          simp [h]
        | null => simp [fetch_api_data]
        | bool b => simp [fetch_api_data]
        | num n => simp [fetch_api_data]
        | str s => simp [fetch_api_data]
        | arr xs => simp [fetch_api_data]
      · simp [fetch_api_data, hs]
  | timeout => rfl
  | transportError => rfl

/-! ## Claim C1: get-or-refresh contract of the content cache -/

/-- Claim C1: for every cache key, if an entry exists and
`now - fetchedAt < CACHE_TIMEOUT` (43200 s) the cached payload is
returned and the fetch function is not called; otherwise the fetch is
performed, and an application-code-200 payload atomically replaces the
entry with `(payload, now)` and is returned, while any other fetch
outcome leaves the entry unchanged and returns `None`.  Consequently
two calls within the TTL issue exactly one fetch and a later call
after the TTL has elapsed issues a second fetch. -/
theorem c1_getOrRefresh_contract (entry : Option CacheEntry) (now : Int) (r : HttpResult) :
    ((∃ e, entry = some e ∧ now - e.fetchedAt < CACHE_TIMEOUT) →
        fetch_cached_data entry now (fetch_api_data r)
          = { entry := entry, ret := entry.map (fun e => e.payload), fetched := false })
    ∧ ((∀ e, entry = some e → ¬(now - e.fetchedAt < CACHE_TIMEOUT)) →
        (fetch_cached_data entry now (fetch_api_data r)).fetched = true
        ∧ (isAppSuccess r = true →
            ∃ d, fetch_api_data r = some d
              ∧ fetch_cached_data entry now (fetch_api_data r)
                  = { entry := some { payload := d, fetchedAt := now },
                      ret := some d, fetched := true })
        ∧ (isAppSuccess r = false →
            fetch_cached_data entry now (fetch_api_data r)
              = { entry := entry, ret := none, fetched := true }))
    ∧ (∀ (t1 t2 : Int) (r2 r3 : HttpResult), isAppSuccess r = true →
        (fetch_cached_data none now (fetch_api_data r)).fetched = true
        ∧ (t1 - now < CACHE_TIMEOUT →
            (fetch_cached_data (fetch_cached_data none now (fetch_api_data r)).entry t1
              (fetch_api_data r2)).fetched = false)
        ∧ (CACHE_TIMEOUT ≤ t2 - now →
            (fetch_cached_data (fetch_cached_data none now (fetch_api_data r)).entry t2
              (fetch_api_data r3)).fetched = true)) := by
  have hrefl_fetched : ∀ (e : Option CacheEntry) (t : Int) (x : Option Json),
      (refresh_step e t x).fetched = true := by
    intro e t x
    cases x with
    | none => rfl
    | some d =>
      by_cases h : (d.truthy && codeIs200 (jget d ("code"))) = true
      · simp [refresh_step, h]
      · simp [refresh_step, h]
  refine ⟨?_, ?_, ?_⟩
  · rintro ⟨e, rfl, hfresh⟩
    simp [fetch_cached_data, hfresh]
  · intro hstale
    have hbranch : fetch_cached_data entry now (fetch_api_data r)
        = refresh_step entry now (fetch_api_data r) := by
      cases entry with
      | none => rfl
      | some e => simp [fetch_cached_data, hstale e rfl]
    refine ⟨?_, ?_, ?_⟩
    · rw [hbranch]; exact hrefl_fetched _ _ _
    · intro hsucc
      obtain ⟨d, hd, htr, hcode⟩ := fetch_api_data_of_success r hsucc
      refine ⟨d, hd, ?_⟩
      rw [hbranch, hd]
      simp [refresh_step, htr, hcode]
    · intro hfail
      rw [hbranch, fetch_api_data_of_failure r hfail]
      rfl
  · intro t1 t2 r2 r3 hsucc
    obtain ⟨d, hd, htr, hcode⟩ := fetch_api_data_of_success r hsucc
    have h1 : fetch_cached_data none now (fetch_api_data r)
        = { entry := some { payload := d, fetchedAt := now }, ret := some d, fetched := true } := by
      simp only [fetch_cached_data, hd]
      simp [refresh_step, htr, hcode]
    refine ⟨by rw [h1], ?_, ?_⟩
    · intro hin
      rw [h1]
      simp [fetch_cached_data, hin]
    · intro hout
      rw [h1]
      have : ¬ (t2 - now < CACHE_TIMEOUT) := by omega
      simp only [fetch_cached_data, this, if_false]
      exact hrefl_fetched _ _ _

/-- Witness for C1 at concrete inputs: a fresh entry (now − fetchedAt =
100 < 43200) is served from the cache without fetching; a stale empty
cache with a successful code-200 response stores the payload; a
rate-limited (code 130) response leaves a stale entry untouched and
returns `None`; and the two-calls-one-fetch scenario at now = 0,
t1 = 43199, t2 = 43200. -/
theorem c1_getOrRefresh_contract_witness :
    (fetch_cached_data (some { payload := Json.obj [("code", Json.num 200)], fetchedAt := 0 })
        (100) (fetch_api_data (HttpResult.response 200 (some (Json.obj [("code", Json.num 130)]))))
      = { entry := some { payload := Json.obj [("code", Json.num 200)], fetchedAt := 0 },
          ret := some (Json.obj [("code", Json.num 200)]), fetched := false })
    ∧ (fetch_cached_data none (50000)
        (fetch_api_data (HttpResult.response 200 (some (Json.obj [("code", Json.num 200)]))))
      = { entry := some { payload := Json.obj [("code", Json.num 200)], fetchedAt := 50000 },
          ret := some (Json.obj [("code", Json.num 200)]), fetched := true })
    ∧ (fetch_cached_data (some { payload := Json.obj [("code", Json.num 200)], fetchedAt := 0 })
        (50000) (fetch_api_data (HttpResult.response 200 (some (Json.obj [("code", Json.num 130)]))))
      = { entry := some { payload := Json.obj [("code", Json.num 200)], fetchedAt := 0 },
          ret := none, fetched := true })
    ∧ ((fetch_cached_data none 0
          (fetch_api_data (HttpResult.response 200 (some (Json.obj [("code", Json.num 200)]))))).fetched
        = true)
    ∧ ((fetch_cached_data
          (fetch_cached_data none 0
            (fetch_api_data (HttpResult.response 200 (some (Json.obj [("code", Json.num 200)]))))).entry
          (43199) (fetch_api_data HttpResult.timeout)).fetched = false)
    ∧ ((fetch_cached_data
          (fetch_cached_data none 0
            (fetch_api_data (HttpResult.response 200 (some (Json.obj [("code", Json.num 200)]))))).entry
          (43200) (fetch_api_data HttpResult.timeout)).fetched = true) := by
  have hfresh := (c1_getOrRefresh_contract
      (some { payload := Json.obj [("code", Json.num 200)], fetchedAt := 0 }) (100)
      (HttpResult.response 200 (some (Json.obj [("code", Json.num 130)])))).1
      ⟨_, rfl, by norm_num [CACHE_TIMEOUT]⟩
  have hstore := ((c1_getOrRefresh_contract none (50000)
      (HttpResult.response 200 (some (Json.obj [("code", Json.num 200)])))).2.1
      (by intro e h; cases h)).2.1 (by decide)
  have hstale := ((c1_getOrRefresh_contract
      (some { payload := Json.obj [("code", Json.num 200)], fetchedAt := 0 }) (50000)
      (HttpResult.response 200 (some (Json.obj [("code", Json.num 130)])))).2.1
      (by intro e h; cases h; norm_num [CACHE_TIMEOUT])).2.2 (by decide)
  have hscenario := (c1_getOrRefresh_contract none 0
      (HttpResult.response 200 (some (Json.obj [("code", Json.num 200)])))).2.2
      (43199) (43200) HttpResult.timeout HttpResult.timeout (by decide)
  obtain ⟨d, hd, hrepl⟩ := hstore
  refine ⟨hfresh, ?_, hstale, hscenario.1,
    hscenario.2.1 (by norm_num [CACHE_TIMEOUT]),
    hscenario.2.2 (by norm_num [CACHE_TIMEOUT])⟩
  have : d = Json.obj [("code", Json.num 200)] := by
    have := hd
    simp [fetch_api_data, codeIs200, jget] at this
    exact this.symm
  rw [this] at hrepl
  exact hrepl

/-! ## Claim C7: fetch-error absorption -/

/-- Claim C7: for every fetch outcome that is not a decodable HTTP-200
response with application code 200 — application codes 130 and 100,
any other application code, an HTTP-level non-success, a timeout, or a
transport error — `_fetch_api_data` returns `None` (never raises) and
the cache entry for the key is left unchanged, so the value returned
to the sensor is `None` on a refresh attempt (letting it keep its last
attributes) or the untouched cached payload on a cache hit. -/
theorem c7_fetch_error_absorption (r : HttpResult) (entry : Option CacheEntry) (now : Int)
    (h : isAppSuccess r = false) :
    fetch_api_data r = none
    ∧ (fetch_cached_data entry now (fetch_api_data r)).entry = entry
    ∧ ((fetch_cached_data entry now (fetch_api_data r)).ret = none
        ∨ (fetch_cached_data entry now (fetch_api_data r)).ret
            = entry.map (fun e => e.payload)) := by
  have hn := fetch_api_data_of_failure r h
  refine ⟨hn, ?_, ?_⟩
  · rw [hn]
    cases entry with
    | none => rfl
    | some e =>
      by_cases hf : now - e.fetchedAt < CACHE_TIMEOUT
      · simp [fetch_cached_data, hf]
      · simp [fetch_cached_data, hf, refresh_step]
  · rw [hn]
    cases entry with
    | none => left; rfl
    | some e =>
      by_cases hf : now - e.fetchedAt < CACHE_TIMEOUT
      · right; simp [fetch_cached_data, hf]
      · left; simp [fetch_cached_data, hf, refresh_step]

/-- Witness for C7: a rate-limited response (application code 130)
against a populated stale cache entry — the fetch yields `None`, the
entry keeps its old payload and timestamp, and the call returns
`None`. -/
theorem c7_fetch_error_absorption_witness :
    isAppSuccess (HttpResult.response 200 (some (Json.obj [("code", Json.num 130)]))) = false
    ∧ fetch_api_data (HttpResult.response 200 (some (Json.obj [("code", Json.num 130)]))) = none
    ∧ (fetch_cached_data (some { payload := Json.obj [("code", Json.num 200)], fetchedAt := 0 })
        (50000)
        (fetch_api_data (HttpResult.response 200 (some (Json.obj [("code", Json.num 130)]))))).entry
        = some { payload := Json.obj [("code", Json.num 200)], fetchedAt := 0 } := by
  have h := c7_fetch_error_absorption
    (HttpResult.response 200 (some (Json.obj [("code", Json.num 130)])))
    (some { payload := Json.obj [("code", Json.num 200)], fetchedAt := 0 }) (50000) (by decide)
  exact ⟨by decide, h.1, h.2.1⟩

/-! ## Claim C2: bounded retry policy -/

/-- Counterexample to claim C2 as stated: the claim says the retry
behavior applies exactly to the two mandatory content types (morning
and evening greeting).  In the code the *evening* sensor never
retries: at retry counter 0 (< 2) a failed evening update immediately
becomes unavailable with no retry scheduled, while the *joke* sensor —
not a mandatory type — does schedule a 1800-second retry. -/
theorem c2_retry_policy_counterexample :
    eveningUpdate { available := true, state := "等待更新", retryCount := 0 } ("2026-01-01") none
      = ({ available := false, state := "2026-01-01", retryCount := 0 }, none)
    ∧ jokeUpdate { available := true, state := "等待更新", retryCount := 0 } ("2026-01-01") none
      = ({ available := true, state := "等待更新", retryCount := 1 }, some 1800) := by
  constructor
  · rfl
  · rfl

/-- Claim C2 (amended): the bounded retry policy — below the maximum
of 2 the counter is incremented and exactly one retry of the full
update routine is scheduled after 1800 seconds, any success resets the
counter to 0, and exhausted retries make the unit unavailable with the
dedicated failure state — applies exactly to the **joke** and
**morning-greeting** units; the evening-greeting unit and every other
unit type report unavailable immediately without retry (their shared
failure handling is `nonRetryingUpdate`). -/
theorem c2_retry_policy_amended (u : UnitState) (currentDate : String) (data : Option Json) :
    ((Json.truthyD data = false ∧ u.retryCount < MAX_RETRIES) →
        jokeUpdate u currentDate data = ({ u with retryCount := u.retryCount + 1 }, some 1800)
        ∧ morningUpdate u currentDate data
            = ({ u with retryCount := u.retryCount + 1 }, some 1800))
    ∧ (Json.truthyD data = true →
        jokeUpdate u currentDate data
          = ({ available := true, state := currentDate, retryCount := 0 }, none)
        ∧ morningUpdate u currentDate data
          = ({ available := true, state := currentDate, retryCount := 0 }, none))
    ∧ ((Json.truthyD data = false ∧ MAX_RETRIES ≤ u.retryCount) →
        jokeUpdate u currentDate data
          = ({ u with available := false, state := API_FAIL_TEXT }, none)
        ∧ morningUpdate u currentDate data
          = ({ u with available := false, state := API_FAIL_TEXT }, none))
    ∧ (Json.truthyD data = false →
        nonRetryingUpdate u currentDate data
          = ({ u with available := false, state := currentDate }, none)
        ∧ eveningUpdate u currentDate data
          = ({ u with available := false, state := currentDate }, none)
        ∧ poetryUpdate u currentDate data
          = ({ u with available := false, state := currentDate }, none)
        ∧ historyUpdate u currentDate data
          = ({ u with available := false, state := currentDate }, none)) := by
  refine ⟨?_, ?_, ?_, ?_⟩
  · rintro ⟨hdata, hlt⟩
    constructor
    · simp [jokeUpdate, hdata, hlt]
    · simp [morningUpdate, hdata, hlt]
  · intro hdata
    constructor
    · simp [jokeUpdate, hdata]
    · simp [morningUpdate, hdata]
  · rintro ⟨hdata, hge⟩
    have hnlt : ¬ u.retryCount < MAX_RETRIES := by omega
    constructor
    · simp [jokeUpdate, hdata, hnlt]
    · simp [morningUpdate, hdata, hnlt]
  · intro hdata
    refine ⟨?_, ?_, ?_, ?_⟩ <;>
      simp [nonRetryingUpdate, eveningUpdate, poetryUpdate, historyUpdate, hdata]

/-- Witness for C2 (amended) at concrete inputs: a failed joke update
at counter 1 increments to 2 and schedules a 1800-second retry; a
successful joke update resets the counter; a failed joke update at
counter 2 becomes unavailable with the failure state; a failed evening
update is immediately unavailable with no retry. -/
theorem c2_retry_policy_amended_witness :
    jokeUpdate { available := true, state := "2026-01-01", retryCount := 1 } ("2026-01-01") none
      = ({ available := true, state := "2026-01-01", retryCount := 2 }, some 1800)
    ∧ jokeUpdate { available := true, state := "x", retryCount := 2 } ("2026-01-02")
        (some (Json.obj [("code", Json.num 200)]))
      = ({ available := true, state := "2026-01-02", retryCount := 0 }, none)
    ∧ jokeUpdate { available := true, state := "2026-01-01", retryCount := 2 } ("2026-01-01") none
      = ({ available := false, state := API_FAIL_TEXT, retryCount := 2 }, none)
    ∧ eveningUpdate { available := true, state := "x", retryCount := 0 } ("2026-01-01") none
      = ({ available := false, state := "2026-01-01", retryCount := 0 }, none) := by
  refine ⟨?_, ?_, ?_, ?_⟩
  · exact ((c2_retry_policy_amended
      { available := true, state := "2026-01-01", retryCount := 1 } ("2026-01-01") none).1
      ⟨rfl, by decide⟩).1
  · exact ((c2_retry_policy_amended
      { available := true, state := "x", retryCount := 2 } ("2026-01-02")
      (some (Json.obj [("code", Json.num 200)]))).2.1 (by decide)).1
  · exact ((c2_retry_policy_amended
      { available := true, state := "2026-01-01", retryCount := 2 } ("2026-01-01") none).2.2.1
      ⟨rfl, by decide⟩).1
  · exact ((c2_retry_policy_amended
      { available := true, state := "x", retryCount := 0 } ("2026-01-01") none).2.2.2
      rfl).2.1

/-! ## Claim C3: degenerate dynamic partition with only the mandatory types -/

/-- Counterexample to claim C3 as stated: with enabled types exactly
`["morning", "evening"]` the generated partition is just the two
mandatory slots, but they do **not** cover the full day — at minute
720 (12:00) the resolver answers the synthetic default slot, not the
morning or evening content type. -/
theorem c3_two_mandatory_slots_counterexample :
    generate_time_slots (["morning", "evening"]) api_type_name = fixed_slots
    ∧ get_current_time_slot (generate_time_slots (["morning", "evening"]) api_type_name) 720
        = ("default", "默认时段")
    ∧ (get_current_time_slot (generate_time_slots (["morning", "evening"]) api_type_name) 720).1
        ≠ "morning"
    ∧ (get_current_time_slot (generate_time_slots (["morning", "evening"]) api_type_name) 720).1
        ≠ "evening" := by
  refine ⟨rfl, rfl, ?_, ?_⟩ <;> decide

/-- Claim C3 (amended): with enabled types exactly the two mandatory
ones the dynamic partition degenerates to exactly the two mandatory
slots; these cover only 05:00–07:59 (morning) and 23:00–04:59
(evening), so minutes 0–299 and 1380–1439 resolve to the evening type,
minutes 300–479 to the morning type, and every minute in 480–1379
(08:00–22:59) resolves to the synthetic default slot. -/
theorem c3_two_mandatory_slots_amended :
    generate_time_slots (["morning", "evening"]) api_type_name = fixed_slots
    ∧ (∀ m : Nat, m < 1440 →
        get_current_time_slot (generate_time_slots (["morning", "evening"]) api_type_name) m
          = (if 300 ≤ m ∧ m ≤ 479 then ("morning", "早安时段")
             else if 1380 ≤ m ∨ m ≤ 299 then ("evening", "晚安时段")
             else ("default", "默认时段"))) := by
  refine ⟨rfl, ?_⟩
  intro m hm
  show get_current_time_slot fixed_slots m = _
  by_cases h1 : 300 ≤ m ∧ m ≤ 479
  · have e1 : slot_matches
        { apiType := "morning", startMin := 5*60, endMin := 7*60+59, slotName := "早安时段" } m
        = true := by
      simp only [slot_matches, interval_matches, slot_interval]
      simp; omega
    simp [get_current_time_slot, fixed_slots, List.find?, e1, h1]
  · have e1 : slot_matches
        { apiType := "morning", startMin := 5*60, endMin := 7*60+59, slotName := "早安时段" } m
        = false := by
      simp only [slot_matches, interval_matches, slot_interval]
      simp; omega
    by_cases h2 : 1380 ≤ m ∨ m ≤ 299
    · have e2 : slot_matches
          { apiType := "evening", startMin := 23*60, endMin := 4*60+59, slotName := "晚安时段" } m
          = true := by
        simp only [slot_matches, interval_matches, slot_interval]
        simp; omega
      simp [get_current_time_slot, fixed_slots, List.find?, e1, e2, h1, h2]
    · have e2 : slot_matches
          { apiType := "evening", startMin := 23*60, endMin := 4*60+59, slotName := "晚安时段" } m
          = false := by
        simp only [slot_matches, interval_matches, slot_interval]
        simp; omega
      simp [get_current_time_slot, fixed_slots, List.find?, e1, e2, h1, h2]

/-- Witness for C3 (amended) at concrete minutes: 06:40 (minute 400)
is the morning slot, 00:10 (minute 10) the evening slot, and 15:00
(minute 900) the default slot. -/
theorem c3_two_mandatory_slots_amended_witness :
    get_current_time_slot (generate_time_slots (["morning", "evening"]) api_type_name) 400
      = ("morning", "早安时段")
    ∧ get_current_time_slot (generate_time_slots (["morning", "evening"]) api_type_name) 10
      = ("evening", "晚安时段")
    ∧ get_current_time_slot (generate_time_slots (["morning", "evening"]) api_type_name) 900
      = ("default", "默认时段") := by
  have h1 := c3_two_mandatory_slots_amended.2 400 (by decide)
  have h2 := c3_two_mandatory_slots_amended.2 10 (by decide)
  have h3 := c3_two_mandatory_slots_amended.2 900 (by decide)
  refine ⟨?_, ?_, ?_⟩
  · rw [h1]; decide
  · rw [h2]; decide
  · rw [h3]; decide

/-! ## Claim C4: rotation list with only the mandatory types enabled -/

/-- Claim C4 concerns a code bug: `SCROLL_CONTENT_TYPES` in `const.py`
contains `"morning"` and `"evening"`, although the filter's adjacent
comment in `TianScrollingContentSensor.__init__` says they are
excluded.  With enabled types exactly `["morning", "evening"]` the
rotation list is therefore **not** empty, and a tick with both caches
populated falls through the presenter (which has no morning/evening
branch) to the "cannot fetch content data" placeholder — not the
"nothing enabled" placeholder the claim (and the comment's intent)
describe — leaving the index unchanged. -/
theorem c4_scroll_list_bug :
    scroll_content_types_init (["morning", "evening"]) = ["morning", "evening"]
    ∧ scroll_content_types_init (["morning", "evening"]) ≠ []
    ∧ update_scrolling_content
        (fun ct => if ct = "morning" || ct = "evening" then
            some (Json.obj [("code", Json.num 200), ("result", Json.obj [("content", Json.str "正文")])])
          else none)
        (["morning", "evening"]) 0
      = (0, set_default_attributes SCROLL_NO_DATA_MSG)
    ∧ set_default_attributes SCROLL_NO_DATA_MSG ≠ set_default_attributes SCROLL_NONE_ENABLED_MSG := by
  refine ⟨rfl, by decide, rfl, by decide⟩

/-! ## Helper lemmas for the slot-partition invariant (C5) -/

lemma countP_le_one_of_pairwise_not_both {α : Type} (p : α → Bool) :
    ∀ l : List α, l.Pairwise (fun a b => ¬(p a = true ∧ p b = true)) → l.countP p ≤ 1 := by
  intro l hl
  induction l with
  | nil => simp
  | cons a l ih =>
    rcases List.pairwise_cons.mp hl with ⟨ha, hl'⟩
    by_cases hpa : p a = true
    · have hz : l.countP p = 0 := by
        rw [List.countP_eq_zero]
        intro b hb
        intro hpb
        exact ha b hb ⟨hpa, hpb⟩
      simp [List.countP_cons, hpa, hz]
    · simp only [List.countP_cons, hpa, if_false]
      simpa using ih hl'

lemma eq_of_pairwise_not_both {α : Type} (p : α → Bool) :
    ∀ l : List α, l.Pairwise (fun a b => ¬(p a = true ∧ p b = true)) →
      ∀ s t, s ∈ l → t ∈ l → p s = true → p t = true → s = t := by
  intro l hl
  induction l with
  | nil => intro s t hs; cases hs
  | cons a l ih =>
    rcases List.pairwise_cons.mp hl with ⟨ha, hl'⟩
    intro s t hs ht hps hpt
    rcases List.mem_cons.mp hs with rfl | hs'
    · rcases List.mem_cons.mp ht with rfl | ht'
      · rfl
      · exact absurd ⟨hps, hpt⟩ (ha t ht')
    · rcases List.mem_cons.mp ht with rfl | ht'
      · exact absurd ⟨hpt, hps⟩ (ha s hs')
      · exact ih hl' s t hs' ht' hps hpt

lemma slot_matches_normal (a nm : String) (s e m : Nat) (hse : s ≤ e) :
    slot_matches { apiType := a, startMin := s, endMin := e, slotName := nm } m
      = (decide (s ≤ m) && decide (m ≤ e)) := by
  simp [slot_matches, interval_matches, slot_interval, hse]

lemma slot_matches_wrap (a nm : String) (s e m : Nat) (hse : e < s) :
    slot_matches { apiType := a, startMin := s, endMin := e, slotName := nm } m
      = (decide (s ≤ m) || decide (m ≤ e)) := by
  simp [slot_matches, interval_matches, slot_interval, Nat.not_le.mpr hse]

lemma slot_arith (n i : Nat) (hn1 : 0 < n) (h8 : n ≤ 8) (hi : i < n) :
    112 ≤ 900 / n ∧ i * (900 / n) + (900 / n) ≤ 900 := by
  constructor
  · have h : (900 : Nat) / 8 ≤ 900 / n := Nat.div_le_div_left h8 hn1
    have h9 : (900 : Nat) / 8 = 112 := by norm_num
    rw [h9] at h
    exact h
  · have e2 : (900 / n) * n ≤ 900 := Nat.div_mul_le_self 900 n
    have e3 : (i + 1) * (900 / n) ≤ n * (900 / n) :=
      Nat.mul_le_mul_right _ (by omega)
    have e4 : (i + 1) * (900 / n) = i * (900 / n) + (900 / n) := Nat.succ_mul i _
    have e5 : n * (900 / n) = (900 / n) * n := Nat.mul_comm _ _
    linarith

lemma optional_slot_matches_iff (opt : List String) (nameOf : String → String) (m i : Nat)
    (h8 : opt.length ≤ 8) (hi : i < opt.length) :
    slot_matches (optional_slot opt nameOf i) m = true
      ↔ (480 + i * (900 / opt.length) ≤ m
         ∧ m ≤ (if i = opt.length - 1 then 1379
                else 480 + i * (900 / opt.length) + (900 / opt.length) - 1)) := by
  have hn1 : 0 < opt.length := by omega
  obtain ⟨h112, hsum⟩ := slot_arith opt.length i hn1 h8 hi
  by_cases hlast : i = opt.length - 1
  · have hse : 480 + i * (900 / opt.length) ≤ 22 * 60 + 59 := by
      generalize hD : 900 / opt.length = D at h112 hsum
      generalize hA : i * D = A at hsum ⊢
      omega
    rw [show optional_slot opt nameOf i
        = { apiType := opt.getD i ""
            startMin := 480 + i * (900 / opt.length)
            endMin := 22 * 60 + 59
            slotName := nameOf (opt.getD i "") ++ "时段" } by
      simp [optional_slot, hlast]]
    rw [slot_matches_normal _ _ _ _ _ hse]
    rw [if_pos hlast]
    simp
  · have hse : 480 + i * (900 / opt.length)
        ≤ 480 + i * (900 / opt.length) + (900 / opt.length) - 1 := by
      generalize hD : 900 / opt.length = D at h112 hsum ⊢
      generalize hA : i * D = A at hsum ⊢
      omega
    rw [show optional_slot opt nameOf i
        = { apiType := opt.getD i ""
            startMin := 480 + i * (900 / opt.length)
            endMin := 480 + i * (900 / opt.length) + (900 / opt.length) - 1
            slotName := nameOf (opt.getD i "") ++ "时段" } by
      simp [optional_slot, hlast]]
    rw [slot_matches_normal _ _ _ _ _ hse]
    rw [if_neg hlast]
    simp

lemma morning_slot_matches_iff (m : Nat) :
    slot_matches
      { apiType := "morning", startMin := 5*60, endMin := 7*60+59, slotName := "早安时段" } m
      = true ↔ (300 ≤ m ∧ m ≤ 479) := by
  rw [slot_matches_normal _ _ _ _ _ (by norm_num)]
  simp

lemma evening_slot_matches_iff (m : Nat) :
    slot_matches
      { apiType := "evening", startMin := 23*60, endMin := 4*60+59, slotName := "晚安时段" } m
      = true ↔ (1380 ≤ m ∨ m ≤ 299) := by
  rw [slot_matches_wrap _ _ _ _ _ (by norm_num)]
  simp

lemma fixed_slots_pairwise (m : Nat) :
    fixed_slots.Pairwise (fun a b => ¬(slot_matches a m = true ∧ slot_matches b m = true)) := by
  unfold fixed_slots
  refine List.pairwise_cons.mpr ⟨?_, List.pairwise_cons.mpr ⟨?_, List.Pairwise.nil⟩⟩
  · intro b hb
    rcases List.mem_singleton.mp hb with rfl
    rintro ⟨hma, hmb⟩
    rw [morning_slot_matches_iff] at hma
    rw [evening_slot_matches_iff] at hmb
    omega
  · intro b hb
    cases hb

lemma generate_time_slots_pairwise (enabled : List String) (nameOf : String → String) (m : Nat)
    (h8 : (enabled.filter (fun a => a ≠ "morning" && a ≠ "evening")).length ≤ 8) :
    (generate_time_slots enabled nameOf).Pairwise
      (fun a b => ¬(slot_matches a m = true ∧ slot_matches b m = true)) := by
  unfold generate_time_slots
  by_cases hemp : (enabled.filter (fun a => a ≠ "morning" && a ≠ "evening")).isEmpty
  · simp only [hemp, if_true]
    exact fixed_slots_pairwise m
  · simp only [hemp, Bool.false_eq_true, if_false]
    set opt := enabled.filter (fun a => a ≠ "morning" && a ≠ "evening") with hopt
    rw [List.pairwise_append]
    refine ⟨fixed_slots_pairwise m, ?_, ?_⟩
    · rw [List.pairwise_map]
      refine (List.pairwise_lt_range opt.length).imp_of_mem ?_
      intro i j hi hj hij
      rw [List.mem_range] at hi hj
      rintro ⟨hmi, hmj⟩
      have bi := (optional_slot_matches_iff opt nameOf m i h8 hi).mp hmi
      have bj := (optional_slot_matches_iff opt nameOf m j h8 hj).mp hmj
      have hinl : i ≠ opt.length - 1 := by omega
      rw [if_neg hinl] at bi
      have h112 := (slot_arith opt.length i (by omega) h8 hi).1
      have hmul : (i + 1) * (900 / opt.length) ≤ j * (900 / opt.length) :=
        Nat.mul_le_mul_right _ (by omega)
      have hsucc : (i + 1) * (900 / opt.length)
          = i * (900 / opt.length) + (900 / opt.length) := Nat.succ_mul i _
      have hjs : 480 + j * (900 / opt.length) ≤ m := bj.1
      have hie : m ≤ 480 + i * (900 / opt.length) + (900 / opt.length) - 1 := bi.2
      generalize hD : 900 / opt.length = D at h112 hmul hsucc hjs hie
      generalize hA : i * D = A at hmul hsucc hjs hie
      generalize hB : j * D = B at hmul hjs
      generalize hC : (i + 1) * D = C at hmul hsucc
      omega
    · intro a ha b hb
      rw [List.mem_map] at hb
      obtain ⟨i, hir, rfl⟩ := hb
      rw [List.mem_range] at hir
      rintro ⟨hma, hmb⟩
      have bi := (optional_slot_matches_iff opt nameOf m i h8 hir).mp hmb
      have hbs : 480 + i * (900 / opt.length) ≤ m := bi.1
      obtain ⟨h112, hsum⟩ := slot_arith opt.length i (by omega) h8 hir
      have hbe : m ≤ 1379 := by
        by_cases hlast : i = opt.length - 1
        · rw [if_pos hlast] at bi
          exact bi.2
        · rw [if_neg hlast] at bi
          have hie := bi.2
          generalize hD : 900 / opt.length = D at h112 hsum hie
          generalize hA : i * D = A at hsum hie
          omega
      have hm480 : 480 ≤ m := by
        generalize hD : 900 / opt.length = D at hbs
        generalize hA : i * D = A at hbs
        omega
      simp only [fixed_slots, List.mem_cons, List.mem_singleton] at ha
      rcases ha with rfl | rfl | h
      · rw [morning_slot_matches_iff] at hma
        omega
      · rw [evening_slot_matches_iff] at hma
        omega
      · cases h

lemma generate_time_slots_apiType (enabled : List String) (nameOf : String → String)
    (h2 : ∀ a ∈ enabled, a ∈ ALL_API_TYPES) :
    ∀ s ∈ generate_time_slots enabled nameOf, s.apiType ≠ "default" := by
  intro s hs
  unfold generate_time_slots at hs
  by_cases hemp : (enabled.filter (fun a => a ≠ "morning" && a ≠ "evening")).isEmpty
  · simp only [hemp, if_true] at hs
    simp only [fixed_slots, List.mem_cons, List.mem_singleton] at hs
    rcases hs with rfl | rfl | h
    · decide
    · decide
    · cases h
  · simp only [hemp, Bool.false_eq_true, if_false] at hs
    rcases List.mem_append.mp hs with hfix | hmap
    · simp only [fixed_slots, List.mem_cons, List.mem_singleton] at hfix
      rcases hfix with rfl | rfl | h
      · decide
      · decide
      · cases h
    · rw [List.mem_map] at hmap
      obtain ⟨i, hir, rfl⟩ := hmap
      rw [List.mem_range] at hir
      show (enabled.filter (fun a => a ≠ "morning" && a ≠ "evening")).getD i "" ≠ "default"
      rw [List.getD_eq_getElem _ _ hir]
      have hmem := List.getElem_mem hir
      have henab := List.mem_of_mem_filter hmem
      have hall := h2 _ henab
      intro heq
      rw [heq] at hall
      exact absurd hall (by decide)

lemma enabled_filter_length_le (enabled : List String)
    (h1 : enabled.Nodup) (h2 : ∀ a ∈ enabled, a ∈ ALL_API_TYPES) :
    (enabled.filter (fun a => a ≠ "morning" && a ≠ "evening")).length ≤ 8 := by
  have hnodup : (enabled.filter (fun a => a ≠ "morning" && a ≠ "evening")).Nodup :=
    h1.filter _
  have hsub : ∀ a ∈ enabled.filter (fun a => a ≠ "morning" && a ≠ "evening"),
      a ∈ (["joke", "poetry", "songci", "yuanqu",
            "history", "sentence", "couplet", "maxim"] : List String) := by
    intro a ha
    rw [List.mem_filter] at ha
    obtain ⟨hmem, hpred⟩ := ha
    have hall := h2 a hmem
    simp only [Bool.and_eq_true, decide_eq_true_eq] at hpred
    simp only [ALL_API_TYPES, List.mem_cons, List.mem_singleton] at hall
    rcases hall with rfl | rfl | rfl | rfl | rfl | rfl | rfl | rfl | rfl | rfl | h
    · simp
    · exact absurd rfl hpred.1
    · exact absurd rfl hpred.2
    · simp
    · simp
    · simp
    · simp
    · simp
    · simp
    · simp
    · cases h
  calc (enabled.filter (fun a => a ≠ "morning" && a ≠ "evening")).length
      = (enabled.filter (fun a => a ≠ "morning" && a ≠ "evening")).toFinset.card :=
        (List.toFinset_card_of_nodup hnodup).symm
    _ ≤ (["joke", "poetry", "songci", "yuanqu",
          "history", "sentence", "couplet", "maxim"] : List String).toFinset.card :=
        Finset.card_le_card (by
          intro x hx
          simp only [List.mem_toFinset] at hx ⊢
          exact hsub x hx)
    _ ≤ 8 := by decide

/-! ## Claim C5: slot-partition invariant -/

/-- Claim C5: for every configuration of enabled content types (a
duplicate-free selection from the fixed catalog, as produced by the
config flow) and every minute of the day, the constructed slots match
with the wrap-aware semantics of `_get_current_time_slot` (a
wrap-around slot with start > end matches iff minute ≥ start or
minute ≤ end, a normal slot iff start ≤ minute ≤ end), the non-default
slots are pairwise disjoint (at most one matches, and two matching
slots are equal), and the resolver answers the synthetic default slot
exactly when no slot matches — so counting the default slot, every
minute maps to exactly one slot. -/
theorem c5_slot_partition_invariant (enabled : List String) (m : Nat)
    (h1 : enabled.Nodup) (h2 : ∀ a ∈ enabled, a ∈ ALL_API_TYPES) (hm : m < 1440) :
    ((∀ s : TimeSlot, s.startMin ≤ s.endMin →
        (slot_matches s m = true ↔ (s.startMin ≤ m ∧ m ≤ s.endMin)))
      ∧ (∀ s : TimeSlot, s.endMin < s.startMin →
        (slot_matches s m = true ↔ (s.startMin ≤ m ∨ m ≤ s.endMin))))
    ∧ (generate_time_slots enabled api_type_name).countP (fun s => slot_matches s m) ≤ 1
    ∧ (∀ s t, s ∈ generate_time_slots enabled api_type_name →
        t ∈ generate_time_slots enabled api_type_name →
        slot_matches s m = true → slot_matches t m = true → s = t)
    ∧ ((generate_time_slots enabled api_type_name).countP (fun s => slot_matches s m) = 0
        ↔ get_current_time_slot (generate_time_slots enabled api_type_name) m
            = ("default", "默认时段")) := by
  have h8 := enabled_filter_length_le enabled h1 h2
  have hpw := generate_time_slots_pairwise enabled api_type_name m h8
  refine ⟨⟨?_, ?_⟩, countP_le_one_of_pairwise_not_both _ _ hpw,
    eq_of_pairwise_not_both _ _ hpw, ?_, ?_⟩
  · intro s hse
    cases s
    rw [slot_matches_normal _ _ _ _ _ hse]
    simp
  · intro s hse
    cases s
    rw [slot_matches_wrap _ _ _ _ _ hse]
    simp
  · intro hz
    have hnone : (generate_time_slots enabled api_type_name).find?
        (fun s => slot_matches s m) = none :=
      List.find?_eq_none.mpr (List.countP_eq_zero.mp hz)
    unfold get_current_time_slot
    rw [hnone]
  · intro hdef
    by_contra hnz
    have hpos : 0 < (generate_time_slots enabled api_type_name).countP
        (fun s => slot_matches s m) := Nat.pos_of_ne_zero hnz
    have hex := List.countP_pos_iff.mp hpos
    have hsome : ((generate_time_slots enabled api_type_name).find?
        (fun s => slot_matches s m)).isSome := List.find?_isSome.mpr hex
    obtain ⟨b, hfb⟩ := Option.isSome_iff_exists.mp hsome
    unfold get_current_time_slot at hdef
    rw [hfb] at hdef
    have hb : b.apiType = "default" := (Prod.mk.injEq _ _ _ _).mp hdef |>.1
    exact generate_time_slots_apiType enabled api_type_name h2 b
      (List.mem_of_find?_eq_some hfb) hb

/-- Witness for C5 at the concrete configuration
`["morning", "evening", "joke"]` and minute 600: at most one slot
matches, and since minute 600 lies in the joke slot the resolver does
not answer the default slot. -/
theorem c5_slot_partition_invariant_witness :
    (generate_time_slots (["morning", "evening", "joke"]) api_type_name).countP
        (fun s => slot_matches s 600) ≤ 1
    ∧ ¬((generate_time_slots (["morning", "evening", "joke"]) api_type_name).countP
        (fun s => slot_matches s 600) = 0)
    ∧ get_current_time_slot
        (generate_time_slots (["morning", "evening", "joke"]) api_type_name) 600
        ≠ ("default", "默认时段") := by
  have h := c5_slot_partition_invariant (["morning", "evening", "joke"]) 600
    (by decide) (by decide) (by decide)
  have hcount := h.2.1
  have hiff := h.2.2.2
  have hnz : ¬((generate_time_slots (["morning", "evening", "joke"]) api_type_name).countP
      (fun s => slot_matches s 600) = 0) := by decide
  exact ⟨hcount, hnz, fun hd => hnz (hiff.mpr hd)⟩

/-! ## Claim C6: rotation sequencing -/

/-- Counterexample to claim C6 as stated: the claim says a tick
presents the content type at the current index and advances whenever
*its* cached payload is present.  In the code
`_update_scrolling_content` first requires the caches of **all**
enabled rotation types to be ready: with list `["joke", "poetry"]`,
joke cached but poetry not, the tick publishes the waiting placeholder
and does not advance, although the current type's payload is present
and presentable. -/
theorem c6_rotation_counterexample :
    (get_content_by_type
        (fun ct => if ct = "joke" then
            some (Json.obj [("code", Json.num 200),
              ("result", Json.obj [("list",
                Json.arr [Json.obj [("title", Json.str "T"), ("content", Json.str "C")]])])])
          else none)
        ("joke")).isSome = true
    ∧ update_scrolling_content
        (fun ct => if ct = "joke" then
            some (Json.obj [("code", Json.num 200),
              ("result", Json.obj [("list",
                Json.arr [Json.obj [("title", Json.str "T"), ("content", Json.str "C")]])])])
          else none)
        (["joke", "poetry"]) 0
      = (0, set_default_attributes SCROLL_WAITING_MSG) := by
  constructor
  · rfl
  · rfl

/-- Claim C6 (amended): on each rotation tick, if any enabled rotation
type's cached payload is missing (or has a falsy `result`) the tick
publishes the waiting placeholder and leaves the index unchanged; with
an empty rotation list it publishes the "nothing enabled" placeholder;
otherwise it reads the type at the current index, and if the presenter
yields content, publishes it and advances the index to
`(index + 1) % length`, while a presenter miss (the morning/evening
entries have no presenter branch) publishes the "no data" placeholder
without advancing.  The index stays in `[0, length)`, and with the
list `[joke, poetry, history]` all cached, three consecutive ticks
present joke, poetry, history in order and the fourth tick wraps back
to joke. -/
theorem c6_rotation_amended :
    (∀ (cache : String → Option Json) (types : List String) (idx : Nat),
        is_cache_ready cache types = false →
        update_scrolling_content cache types idx
          = (idx, set_default_attributes SCROLL_WAITING_MSG))
    ∧ (∀ (cache : String → Option Json) (idx : Nat),
        update_scrolling_content cache [] idx
          = (idx, set_default_attributes SCROLL_NONE_ENABLED_MSG))
    ∧ (∀ (cache : String → Option Json) (types : List String) (idx : Nat) (pc : Presented),
        is_cache_ready cache types = true → types ≠ [] →
        get_content_by_type cache (types.getD idx "") = some pc →
        update_scrolling_content cache types idx
          = ((idx + 1) % types.length, scroll_attrs_of pc (types.getD idx "")))
    ∧ (∀ (cache : String → Option Json) (types : List String) (idx : Nat),
        is_cache_ready cache types = true → types ≠ [] →
        get_content_by_type cache (types.getD idx "") = none →
        update_scrolling_content cache types idx
          = (idx, set_default_attributes SCROLL_NO_DATA_MSG))
    ∧ (∀ (cache : String → Option Json) (types : List String) (idx : Nat),
        idx < types.length →
        (update_scrolling_content cache types idx).1 < types.length)
    ∧ ((update_scrolling_content c6DemoCache (["joke", "poetry", "history"]) 0).1 = 1
        ∧ (update_scrolling_content c6DemoCache (["joke", "poetry", "history"]) 0).2.contentType
            = "joke"
        ∧ (update_scrolling_content c6DemoCache (["joke", "poetry", "history"]) 1).1 = 2
        ∧ (update_scrolling_content c6DemoCache (["joke", "poetry", "history"]) 1).2.contentType
            = "poetry"
        ∧ (update_scrolling_content c6DemoCache (["joke", "poetry", "history"]) 2).1 = 0
        ∧ (update_scrolling_content c6DemoCache (["joke", "poetry", "history"]) 2).2.contentType
            = "history"
        ∧ (update_scrolling_content c6DemoCache (["joke", "poetry", "history"]) 0).2.contentType
            = "joke") := by
  refine ⟨?_, ?_, ?_, ?_, ?_, ?_⟩
  · intro cache types idx hnr
    simp [update_scrolling_content, hnr]
  · intro cache idx
    rfl
  · intro cache types idx pc hr hne hpc
    have hie : types.isEmpty = false := by
      simpa [List.isEmpty_iff] using hne
    simp only [List.getD_eq_getElem?_getD] at hpc
    simp [update_scrolling_content, hr, hie, hpc]
  · intro cache types idx hr hne hpc
    have hie : types.isEmpty = false := by
      simpa [List.isEmpty_iff] using hne
    simp only [List.getD_eq_getElem?_getD] at hpc
    simp [update_scrolling_content, hr, hie, hpc]
  · intro cache types idx hidx
    have hlen : 0 < types.length := by omega
    unfold update_scrolling_content
    by_cases hr : is_cache_ready cache types
    · have hie : types.isEmpty = false := by
        cases types with
        | nil => simp at hlen
        | cons a l => rfl
      simp only [hr, Bool.not_true, Bool.false_eq_true, if_false, hie]
      cases hpc : get_content_by_type cache (types.getD idx "") with
      | some pc => simpa using Nat.mod_lt _ hlen
      | none => simpa using hidx
    · have hr' : is_cache_ready cache types = false := by
        simpa using hr
      simp only [hr', Bool.not_false, if_true]
      simpa using hidx
  · refine ⟨?_, ?_, ?_, ?_, ?_, ?_, ?_⟩ <;> rfl

/-- Witness for C6 (amended) at concrete inputs: an empty cache with
list `["joke"]` gives the waiting placeholder without advancing, and a
fully cached `["joke", "poetry", "history"]` tick at index 0 presents
the joke content and advances to index 1. -/
theorem c6_rotation_amended_witness :
    update_scrolling_content (fun _ => none) (["joke"]) 0
      = (0, set_default_attributes SCROLL_WAITING_MSG)
    ∧ (update_scrolling_content c6DemoCache (["joke", "poetry", "history"]) 0).1 = 1
    ∧ (update_scrolling_content c6DemoCache (["joke", "poetry", "history"]) 2).1 = 0
    ∧ (∀ idx : Nat, idx < 3 →
        (update_scrolling_content c6DemoCache (["joke", "poetry", "history"]) idx).1 < 3) := by
  have h1 := c6_rotation_amended.1 (fun _ => none) (["joke"]) 0 (by rfl)
  have h6 := c6_rotation_amended.2.2.2.2.2
  have h5 := c6_rotation_amended.2.2.2.2.1 c6DemoCache (["joke", "poetry", "history"])
  exact ⟨h1, h6.1, h6.2.2.2.2.1, fun idx hidx => h5 idx hidx⟩

/-! ## Helper lemmas for the line-break formatters (C8) -/

lemma replaceL_single (c : Char) (rep : List Char) :
    ∀ l : List Char, replaceL [c] rep l
      = l.flatMap (fun x => if x = c then rep else [x]) := by
  intro l
  induction l with
  | nil => rw [replaceL]; rfl
  | cons x xs ih =>
    rw [List.flatMap_cons]
    by_cases hxc : x = c
    · subst hxc
      rw [replaceL, if_pos ⟨by simp, by simp [List.isPrefixOf_cons₂]⟩]
      simp [ih]
    · rw [replaceL, if_neg (by
        intro hcontra
        have h2 := hcontra.2
        simp [List.isPrefixOf_cons₂] at h2
        exact hxc h2.symm)]
      simp [hxc, ih]

lemma flatMap_id_of_fixed (f : Char → List Char) :
    ∀ l : List Char, (∀ c ∈ l, f c = [c]) → l.flatMap f = l := by
  intro l
  induction l with
  | nil => intro _; rfl
  | cons x xs ih =>
    intro h
    rw [List.flatMap_cons, h x (List.mem_cons_self x xs),
      ih (fun c hc => h c (List.mem_cons_of_mem _ hc))]
    rfl

lemma flatMap_assoc (f g : Char → List Char) :
    ∀ l : List Char, (l.flatMap f).flatMap g = l.flatMap (fun x => (f x).flatMap g) := by
  intro l
  induction l with
  | nil => rfl
  | cons x xs ih =>
    rw [List.flatMap_cons, List.flatMap_append, ih, List.flatMap_cons]

lemma flatMap_keep (q : Char) (rep : List Char) (y : Char) (brk : List Char)
    (hy : y ≠ q) (hb : q ∉ brk) :
    (y :: brk).flatMap (fun c => if c = q then rep else [c]) = y :: brk := by
  rw [List.flatMap_cons, if_neg hy,
    flatMap_id_of_fixed _ brk (fun c hc => if_neg (by rintro rfl; exact hb hc))]
  rfl

lemma replace3_eq_flatMap (brk : List Char)
    (h1 : ('。' : Char) ∉ brk) (h2 : ('？' : Char) ∉ brk) (h3 : ('！' : Char) ∉ brk)
    (l : List Char) :
    replaceL (['！']) ('！' :: brk)
      (replaceL (['？']) ('？' :: brk)
        (replaceL (['。']) ('。' :: brk) l))
      = l.flatMap (fun c => if punct_mark c then c :: brk else [c]) := by
  rw [replaceL_single, replaceL_single, replaceL_single, flatMap_assoc, flatMap_assoc]
  congr 1
  funext x
  by_cases hx1 : x = '。'
  · subst hx1
    rw [if_pos rfl, ← flatMap_assoc, flatMap_keep ('？') ('？' :: brk) ('。') brk (by decide) h2,
      flatMap_keep ('！') ('！' :: brk) ('。') brk (by decide) h3]
    rw [if_pos (by decide)]
  · by_cases hx2 : x = '？'
    · subst hx2
      rw [if_neg hx1, ← flatMap_assoc]
      have e2 : ([('？' : Char)]).flatMap (fun c => if c = '？' then '？' :: brk else [c])
          = '？' :: brk := by
        rw [List.flatMap_cons, if_pos rfl]
        simp
      rw [e2, flatMap_keep ('！') ('！' :: brk) ('？') brk (by decide) h3]
      rw [if_pos (by decide)]
    · by_cases hx3 : x = '！'
      · subst hx3
        rw [if_neg hx1, ← flatMap_assoc]
        have e2 : ([('！' : Char)]).flatMap (fun c => if c = '？' then '？' :: brk else [c])
            = [('！' : Char)] := by
          rw [List.flatMap_cons, if_neg (by decide)]
          rfl
        have e3 : ([('！' : Char)]).flatMap (fun c => if c = '！' then '！' :: brk else [c])
            = '！' :: brk := by
          rw [List.flatMap_cons, if_pos rfl]
          simp
        rw [e2, e3, if_pos (by decide)]
      · rw [if_neg hx1, ← flatMap_assoc]
        have e2 : ([x]).flatMap (fun c => if c = '？' then '？' :: brk else [c]) = [x] := by
          rw [List.flatMap_cons, if_neg hx2]
          rfl
        have e3 : ([x]).flatMap (fun c => if c = '！' then '！' :: brk else [c]) = [x] := by
          rw [List.flatMap_cons, if_neg hx3]
          rfl
        rw [e2, e3, if_neg (by simp [punct_mark, hx1, hx2, hx3])]

lemma isPrefixOf_append_cancel (a l1 l2 : List Char) :
    (a ++ l1).isPrefixOf (a ++ l2) = l1.isPrefixOf l2 := by
  induction a with
  | nil => rfl
  | cons x xs ih => simp [List.isPrefixOf_cons₂, ih]

lemma replaceL_skip (pat rep : List Char) :
    ∀ (pre rest : List Char),
      (∀ j, j < pre.length → (pat.isPrefixOf (pre.drop j ++ rest)) = false) →
      replaceL pat rep (pre ++ rest) = pre ++ replaceL pat rep rest := by
  intro pre
  induction pre with
  | nil => intro rest _; rfl
  | cons p ps ih =>
    intro rest h
    have h0 := h 0 (by simp)
    simp only [List.drop_zero] at h0
    show replaceL pat rep (p :: (ps ++ rest)) = p :: (ps ++ replaceL pat rep rest)
    rw [replaceL, if_neg (by
      rintro ⟨-, hpref⟩
      rw [show (p :: ps) ++ rest = p :: (ps ++ rest) from rfl] at h0
      rw [h0] at hpref
      cases hpref)]
    rw [ih rest (fun j hj => h (j + 1) (by simpa using Nat.succ_lt_succ hj))]

lemma flatMap_break_head (brk : List Char) :
    ∀ xs : List Char, (∀ c ∈ xs, c ∉ brk) →
      (xs.flatMap (fun c => if punct_mark c then c :: brk else [c])) = []
      ∨ ∃ y rest, (xs.flatMap (fun c => if punct_mark c then c :: brk else [c])) = y :: rest
          ∧ y ∉ brk := by
  intro xs hxs
  cases xs with
  | nil => left; rfl
  | cons y ys =>
    right
    rw [List.flatMap_cons]
    by_cases hp : punct_mark y
    · exact ⟨y, brk ++ ys.flatMap (fun c => if punct_mark c then c :: brk else [c]),
        by simp [hp], hxs y (List.mem_cons_self _ _)⟩
    · exact ⟨y, ys.flatMap (fun c => if punct_mark c then c :: brk else [c]),
        by simp [hp], hxs y (List.mem_cons_self _ _)⟩

lemma isPrefixOf_head_ne (a b : Char) (as bs : List Char) (hne : ¬(a = b)) :
    ((a :: as).isPrefixOf (b :: bs)) = false := by
  simp [List.isPrefixOf_cons₂, hne]

lemma collapse_id (h : Char) (bt : List Char)
    (hhp : punct_mark h = false) (hhbt : h ∉ bt) :
    ∀ l : List Char, (∀ c ∈ l, c ∉ (h :: bt)) →
      replaceL ((h :: bt) ++ (h :: bt)) (h :: bt)
        (l.flatMap (fun c => if punct_mark c then c :: (h :: bt) else [c]))
        = l.flatMap (fun c => if punct_mark c then c :: (h :: bt) else [c]) := by
  intro l
  induction l with
  | nil =>
    intro _
    rw [List.flatMap_nil, replaceL]
  | cons x xs ih =>
    intro hcl
    have hx : x ∉ (h :: bt) := hcl x (List.mem_cons_self _ _)
    have hxs : ∀ c ∈ xs, c ∉ (h :: bt) := fun c hc => hcl c (List.mem_cons_of_mem _ hc)
    have hhx : ¬(h = x) := fun he => hx (he ▸ List.mem_cons_self _ _)
    rw [List.flatMap_cons]
    by_cases hp : punct_mark x
    · rw [if_pos hp]
      have hpos : ∀ j, j < (x :: h :: bt).length →
          (((h :: bt) ++ (h :: bt)).isPrefixOf
            ((x :: h :: bt).drop j
              ++ xs.flatMap (fun c => if punct_mark c then c :: (h :: bt) else [c])))
            = false := by
        intro j hj
        match j with
        | 0 =>
          exact isPrefixOf_head_ne h x _ _ hhx
        | 1 =>
          show (((h :: bt) ++ (h :: bt)).isPrefixOf ((h :: bt) ++ _)) = false
          rw [isPrefixOf_append_cancel]
          rcases flatMap_break_head (h :: bt) xs hxs with hnil | ⟨y, rest', hy, hyn⟩
          · rw [hnil]
            rfl
          · rw [hy]
            have hyh : ¬(h = y) := fun he => hyn (he ▸ List.mem_cons_self _ _)
            exact isPrefixOf_head_ne h y _ _ hyh
        | (k + 2) =>
          have hk : k < bt.length := by
            simp only [List.length_cons] at hj
            omega
          show (((h :: bt) ++ (h :: bt)).isPrefixOf (bt.drop k ++ _)) = false
          rw [List.drop_eq_getElem_cons hk, List.cons_append]
          have hbh : ¬(h = bt[k]) := fun he => hhbt (he ▸ List.getElem_mem hk)
          exact isPrefixOf_head_ne h (bt[k]) _ _ hbh
      rw [replaceL_skip _ _ (x :: h :: bt) _ hpos, ih hxs]
    · rw [if_neg hp]
      have hpos : ∀ j, j < ([x] : List Char).length →
          (((h :: bt) ++ (h :: bt)).isPrefixOf
            (([x] : List Char).drop j
              ++ xs.flatMap (fun c => if punct_mark c then c :: (h :: bt) else [c])))
            = false := by
        intro j hj
        match j with
        | 0 => exact isPrefixOf_head_ne h x _ _ hhx
      rw [replaceL_skip _ _ ([x] : List Char) _ hpos, ih hxs]

lemma isSuffixOf_append_self (brk rest : List Char) :
    (brk.isSuffixOf (rest ++ brk)) = true := by
  show (brk.reverse.isPrefixOf (rest ++ brk).reverse) = true
  rw [List.reverse_append]
  rw [show brk.reverse.isPrefixOf (brk.reverse ++ rest.reverse)
      = (brk.reverse ++ []).isPrefixOf (brk.reverse ++ rest.reverse) by rw [List.append_nil]]
  rw [isPrefixOf_append_cancel]
  cases rest.reverse <;> rfl

lemma isSuffixOf_false_of_last_notin (h : Char) (bt A : List Char) (x : Char)
    (hx : x ∉ (h :: bt)) :
    ((h :: bt).isSuffixOf (A ++ [x])) = false := by
  show ((h :: bt).reverse.isPrefixOf (A ++ [x]).reverse) = false
  rw [List.reverse_append]
  cases hrev : (h :: bt).reverse with
  | nil => exact absurd hrev (by simp)
  | cons y ys =>
    have hy : y ∈ (h :: bt) := by
      rw [← List.mem_reverse, hrev]
      exact List.mem_cons_self _ _
    have hyx : ¬(y = x) := fun he => hx (he ▸ hy)
    exact isPrefixOf_head_ne y x _ _ hyx

lemma rstrip_spec (h : Char) (bt : List Char)
    (l : List Char) (hcl : ∀ c ∈ l, c ∉ (h :: bt)) :
    ((spec_break_insert (h :: bt) l).reverse.dropWhile
        (fun c => (h :: bt).contains c)).reverse
      = spec_break_rendering (h :: bt) l := by
  rcases List.eq_nil_or_concat l with rfl | ⟨L, x, rfl⟩
  · have hsf : ((h :: bt).isSuffixOf (spec_break_insert (h :: bt) [])) = false := by
      show ((h :: bt).reverse.isPrefixOf ([] : List Char).reverse) = false
      cases hrev : (h :: bt).reverse with
      | nil => exact absurd hrev (by simp)
      | cons y ys => rfl
    rw [spec_break_rendering, hsf]
    rfl
  · rw [List.concat_eq_append] at hcl ⊢
    have hx : x ∉ (h :: bt) := hcl x (by simp)
    by_cases hpx : punct_mark x
    · have hins : spec_break_insert (h :: bt) (L ++ [x])
          = (spec_break_insert (h :: bt) L ++ [x]) ++ (h :: bt) := by
        unfold spec_break_insert
        rw [List.flatMap_append, List.flatMap_cons, if_pos hpx]
        simp
      rw [hins]
      rw [List.reverse_append]
      rw [List.dropWhile_append]
      have hall : List.dropWhile (fun c => (h :: bt).contains c) (h :: bt).reverse = [] :=
        List.dropWhile_eq_nil_iff.mpr (by
          intro c hc
          rw [List.mem_reverse] at hc
          simpa [List.contains] using hc)
      rw [hall]
      simp only [List.isEmpty_nil, if_true]
      rw [List.reverse_append]
      simp only [List.reverse_cons, List.reverse_nil, List.nil_append, List.singleton_append]
      rw [List.dropWhile_cons_of_neg (by simpa [List.contains] using hx)]
      rw [show (x :: (spec_break_insert (h :: bt) L).reverse).reverse
          = spec_break_insert (h :: bt) L ++ [x] by simp]
      rw [spec_break_rendering, hins, isSuffixOf_append_self]
      simp only [if_true]
      rw [List.length_append, Nat.add_sub_cancel, List.take_left]
    · have hins : spec_break_insert (h :: bt) (L ++ [x])
          = spec_break_insert (h :: bt) L ++ [x] := by
        unfold spec_break_insert
        rw [List.flatMap_append, List.flatMap_cons, if_neg hpx]
        rfl
      rw [hins]
      rw [List.reverse_append]
      simp only [List.reverse_cons, List.reverse_nil, List.nil_append, List.singleton_append]
      rw [List.dropWhile_cons_of_neg (by simpa [List.contains] using hx)]
      rw [show (x :: (spec_break_insert (h :: bt) L).reverse).reverse
          = spec_break_insert (h :: bt) L ++ [x] by simp]
      rw [spec_break_rendering, hins,
        isSuffixOf_false_of_last_notin h bt (spec_break_insert (h :: bt) L) x hx]
      simp

/-! ## Claim C8: long-form line-break rendering -/

/-- Counterexample to claim C8 as stated: the final
`rstrip("<br>")` of `_format_line_breaks` is a character-**set** strip,
so for the input "ab" (no sentence-ending punctuation at all) the code
strips the trailing letter `b` (a member of the set `{<, b, r, >}`)
and renders "a", while the claimed rendering — the text with `<br>`
inserted after 。？！ and the trailing break trimmed, the rest
unchanged — is "ab". -/
theorem c8_line_break_rendering_counterexample :
    format_line_breaks (some ("ab")) = "a"
    ∧ spec_markup_rendering ("ab") = "ab"
    ∧ format_line_breaks (some ("ab")) ≠ spec_markup_rendering ("ab") := by
  have h1 : format_line_breaks (some ("ab")) = "a" := by
    simp [format_line_breaks, pyReplace, pyRstrip, replaceL]
  have h2 : spec_markup_rendering ("ab") = "ab" := by
    simp [spec_markup_rendering, spec_break_rendering, spec_break_insert, punct_mark,
      List.isSuffixOf, List.isPrefixOf]
  refine ⟨h1, h2, ?_⟩
  intro hcontra
  rw [h1, h2] at hcontra
  exact absurd hcontra (by decide)

/-- Claim C8 (amended): for every text containing none of the four
characters `<`, `b`, `r`, `>`, the markup rendering equals the text
with `"<br>"` inserted after each of 。？！ and the trailing break
trimmed, the rest unchanged; for every text containing no newline, the
plain rendering is the same substitution with `"\n"`.  (On texts using
those characters the code's `"<br><br>"`-collapse and character-set
`rstrip` can alter the text itself, as the counterexample shows.) -/
theorem c8_line_break_rendering_amended (t : String) :
    ((∀ c ∈ t.data, c ∉ (['<', 'b', 'r', '>'] : List Char)) →
        format_line_breaks (some t) = spec_markup_rendering t)
    ∧ ((∀ c ∈ t.data, c ∉ (['\n'] : List Char)) →
        format_plain_breaks (some t) = spec_plain_rendering t) := by
  constructor
  · intro hcl
    have h3 : replaceL (['！']) (['！', '<', 'b', 'r', '>'])
        (replaceL (['？']) (['？', '<', 'b', 'r', '>'])
          (replaceL (['。']) (['。', '<', 'b', 'r', '>']) t.data))
        = spec_break_insert (['<', 'b', 'r', '>']) t.data :=
      replace3_eq_flatMap (['<', 'b', 'r', '>']) (by decide) (by decide) (by decide) t.data
    have hco : replaceL (['<', 'b', 'r', '>', '<', 'b', 'r', '>']) (['<', 'b', 'r', '>'])
        (spec_break_insert (['<', 'b', 'r', '>']) t.data)
        = spec_break_insert (['<', 'b', 'r', '>']) t.data :=
      collapse_id ('<') (['b', 'r', '>']) (by decide) (by decide) t.data hcl
    have hrs : ((spec_break_insert (['<', 'b', 'r', '>']) t.data).reverse.dropWhile
        (fun c => (['<', 'b', 'r', '>'] : List Char).contains c)).reverse
        = spec_break_rendering (['<', 'b', 'r', '>']) t.data :=
      rstrip_spec ('<') (['b', 'r', '>']) t.data hcl
    show String.mk (((replaceL (['<', 'b', 'r', '>', '<', 'b', 'r', '>']) (['<', 'b', 'r', '>'])
        (replaceL (['！']) (['！', '<', 'b', 'r', '>'])
          (replaceL (['？']) (['？', '<', 'b', 'r', '>'])
            (replaceL (['。']) (['。', '<', 'b', 'r', '>']) t.data)))).reverse.dropWhile
          (fun c => (['<', 'b', 'r', '>'] : List Char).contains c)).reverse)
      = String.mk (spec_break_rendering (['<', 'b', 'r', '>']) t.data)
    rw [h3, hco, hrs]
  · intro hcl
    have h3 : replaceL (['！']) (['！', '\n'])
        (replaceL (['？']) (['？', '\n'])
          (replaceL (['。']) (['。', '\n']) t.data))
        = spec_break_insert (['\n']) t.data :=
      replace3_eq_flatMap (['\n']) (by decide) (by decide) (by decide) t.data
    have hco : replaceL (['\n', '\n']) (['\n'])
        (spec_break_insert (['\n']) t.data)
        = spec_break_insert (['\n']) t.data :=
      collapse_id ('\n') ([]) (by decide) (by decide) t.data hcl
    have hrs : ((spec_break_insert (['\n']) t.data).reverse.dropWhile
        (fun c => (['\n'] : List Char).contains c)).reverse
        = spec_break_rendering (['\n']) t.data :=
      rstrip_spec ('\n') ([]) t.data hcl
    show String.mk (((replaceL (['\n', '\n']) (['\n'])
        (replaceL (['！']) (['！', '\n'])
          (replaceL (['？']) (['？', '\n'])
            (replaceL (['。']) (['。', '\n']) t.data)))).reverse.dropWhile
          (fun c => (['\n'] : List Char).contains c)).reverse)
      = String.mk (spec_break_rendering (['\n']) t.data)
    rw [h3, hco, hrs]

/-- Witness for C8 (amended) at the concrete text 你好。世界！ (which
contains none of the special characters): both renderings agree with
the spec-side renderings, inserting a break after 。 and trimming the
trailing one after ！. -/
theorem c8_line_break_rendering_amended_witness :
    format_line_breaks (some ("你好。世界！")) = spec_markup_rendering ("你好。世界！")
    ∧ format_plain_breaks (some ("你好。世界！")) = spec_plain_rendering ("你好。世界！")
    ∧ format_line_breaks (some ("你好。世界！")) = "你好。<br>世界！" := by
  have h := c8_line_break_rendering_amended ("你好。世界！")
  refine ⟨h.1 (by decide), h.2 (by decide), ?_⟩
  rw [h.1 (by decide)]
  simp [spec_markup_rendering, spec_break_rendering, spec_break_insert, punct_mark,
    List.isSuffixOf, List.isPrefixOf]

/-! ## Claim C9: emoji-stripped title variant -/

/-- Counterexample to claim C9 as stated: the history title is
U+1F3F7 U+FE0F followed by 简说历史, and the maxim title is
U+2618 U+FE0F followed by 英文格言.  U+FE0F and U+2618 lie outside the
four ranges of `_remove_emoji`, so stripping those ranges from the
display title leaves U+FE0F (history) resp. the whole ☘️ sequence
(maxim) behind, and the result differs from the stored `title2`
variant. -/
theorem c9_emoji_title_counterexample :
    remove_emoji ((get_time_slot_content ("history") (Json.obj [])).title)
      ≠ (get_time_slot_content ("history") (Json.obj [])).title2
    ∧ remove_emoji ((get_time_slot_content ("maxim") (Json.obj [])).title)
      ≠ (get_time_slot_content ("maxim") (Json.obj [])).title2 := by
  constructor
  · intro hcontra
    rw [show (get_time_slot_content ("history") (Json.obj [])).title = "🏷️简说历史" from rfl,
      show (get_time_slot_content ("history") (Json.obj [])).title2 = "简说历史" from rfl]
      at hcontra
    exact absurd hcontra (by decide)
  · intro hcontra
    rw [show (get_time_slot_content ("maxim") (Json.obj [])).title = "☘️英文格言" from rfl,
      show (get_time_slot_content ("maxim") (Json.obj [])).title2 = "英文格言" from rfl]
      at hcontra
    exact absurd hcontra (by decide)

set_option maxHeartbeats 3200000 in
/-- Claim C9 (amended): for every content type presented by the two
composite sensors, `title2` equals the display title with the four
emoji ranges **and additionally U+FE0F and U+2618** removed; the
ranges alone suffice for every type except history and maxim, whose
titles contain U+FE0F (and, for maxim, U+2618) outside the four
ranges. -/
theorem c9_emoji_title_amended (data : Json) (apiType : String)
    (cache : String → Option Json) :
    ((get_time_slot_content apiType data).title2
        = remove_emoji_ext ((get_time_slot_content apiType data).title))
    ∧ (apiType ≠ "history" → apiType ≠ "maxim" →
        (get_time_slot_content apiType data).title2
          = remove_emoji ((get_time_slot_content apiType data).title))
    ∧ (∀ pc, get_content_by_type cache apiType = some pc →
        pc.title2 = remove_emoji_ext pc.title)
    ∧ (∀ pc, get_content_by_type cache apiType = some pc →
        apiType ≠ "history" → apiType ≠ "maxim" →
        pc.title2 = remove_emoji pc.title) := by
  refine ⟨?_, ?_, ?_, ?_⟩
  · unfold get_time_slot_content
    split_ifs <;> rfl
  · intro hh hmx
    unfold get_time_slot_content
    split_ifs <;> first | rfl | simp_all
  · intro pc hpc
    unfold get_content_by_type at hpc
    simp only [] at hpc
    split_ifs at hpc <;>
      first
        | exact Option.noConfusion hpc
        | (rw [Option.some.injEq] at hpc; subst hpc; rfl)
  · intro pc hpc hh hmx
    unfold get_content_by_type at hpc
    simp only [] at hpc
    split_ifs at hpc <;>
      first
        | exact Option.noConfusion hpc
        | (rw [Option.some.injEq] at hpc; subst hpc; rfl)
        | simp_all

/-- Witness for C9 (amended) at concrete inputs: the joke presenter of
the time-slot sensor on an empty payload, and the joke presenter of
the scrolling sensor on the demo cache. -/
theorem c9_emoji_title_amended_witness :
    (get_time_slot_content ("joke") (Json.obj [])).title2
      = remove_emoji ((get_time_slot_content ("joke") (Json.obj [])).title)
    ∧ (get_time_slot_content ("history") (Json.obj [])).title2
      = remove_emoji_ext ((get_time_slot_content ("history") (Json.obj [])).title) := by
  have h := c9_emoji_title_amended (Json.obj []) ("joke") (fun _ => none)
  have h2 := c9_emoji_title_amended (Json.obj []) ("history") (fun _ => none)
  exact ⟨h.2.1 (by decide) (by decide), h2.1⟩

/-! ## Claim C10: totality of the result-extraction helpers -/

/-- Counterexample to claim C10 as stated: the `_extract_result` of
`TianHistorySensor` (and the identical copies in the sentence,
couplet, maxim and time-slot sensors) calls `data.get("result", {})`
after only a truthiness check, so a truthy non-dict input — e.g. the
non-empty list `[1]` — raises `AttributeError` instead of returning
its first element (`none` models the raise).  Only the scrolling
sensor's variant is total. -/
theorem c10_extract_result_counterexample :
    extract_result (Json.arr [Json.num 1]) = none
    ∧ extract_result_scroll (Json.arr [Json.num 1]) = Json.num 1 := by
  exact ⟨rfl, rfl⟩

/-- Claim C10 (amended): the scrolling sensor's `_extract_result` is
total — empty dict for falsy input, the dict itself for a (non-empty)
dict, the first element for a non-empty list, empty dict for any other
truthy value.  The other `_extract_result` helpers return without
raising only on falsy or dict inputs: a falsy input yields the empty
dict, a dict input yields its `result` field processed as
first-element-of-a-non-empty-list / dict-itself / empty-dict-otherwise,
and a truthy non-dict input raises `AttributeError` (modelled as
`none`). -/
theorem c10_extract_result_amended (j : Json) :
    (j.truthy = false → extract_result j = some (Json.obj [])
        ∧ extract_result_scroll j = Json.obj [])
    ∧ (∀ fs, j = Json.obj fs → j.truthy = true → extract_result_scroll j = j)
    ∧ (∀ xs, j = Json.arr xs → j.truthy = true →
        extract_result_scroll j = xs.headD (Json.obj []))
    ∧ (j.truthy = true → (∀ fs, j ≠ Json.obj fs) → (∀ xs, j ≠ Json.arr xs) →
        extract_result_scroll j = Json.obj [])
    ∧ (∀ fs xs, j = Json.obj fs → j.truthy = true →
        jgetD j ("result") (Json.obj []) = Json.arr xs →
        extract_result j = some (xs.headD (Json.obj [])))
    ∧ (∀ fs fs2, j = Json.obj fs → j.truthy = true →
        jgetD j ("result") (Json.obj []) = Json.obj fs2 →
        extract_result j = some (Json.obj fs2))
    ∧ (∀ fs, j = Json.obj fs → j.truthy = true →
        (∀ xs, jgetD j ("result") (Json.obj []) ≠ Json.arr xs) →
        (∀ fs2, jgetD j ("result") (Json.obj []) ≠ Json.obj fs2) →
        extract_result j = some (Json.obj []))
    ∧ (j.truthy = true → (∀ fs, j ≠ Json.obj fs) → extract_result j = none) := by
  refine ⟨?_, ?_, ?_, ?_, ?_, ?_, ?_, ?_⟩
  · intro hf
    constructor
    · unfold extract_result
      rw [hf]
      rfl
    · unfold extract_result_scroll
      rw [hf]
      rfl
  · rintro fs rfl ht
    unfold extract_result_scroll
    rw [ht]
    rfl
  · rintro xs rfl ht
    unfold extract_result_scroll
    rw [ht]
    cases xs with
    | nil => rfl
    | cons x xs' => rfl
  · intro ht hno hna
    unfold extract_result_scroll
    rw [ht]
    cases j with
    | obj fs => exact absurd rfl (hno fs)
    | arr xs => exact absurd rfl (hna xs)
    | null => rfl
    | bool b => rfl
    | num n => rfl
    | str s => rfl
  · rintro fs xs rfl ht hres
    unfold extract_result
    rw [ht, hres]
    cases xs with
    | nil => rfl
    | cons x xs' => rfl
  · rintro fs fs2 rfl ht hres
    unfold extract_result
    rw [ht, hres]
    rfl
  · rintro fs rfl ht hna hno
    unfold extract_result
    rw [ht]
    cases hres : jgetD (Json.obj fs) ("result") (Json.obj []) with
    | arr xs => exact absurd hres (hna xs)
    | obj fs2 => exact absurd hres (hno fs2)
    | null => simp [hres]
    | bool b => simp [hres]
    | num n => simp [hres]
    | str s => simp [hres]
  · intro ht hno
    unfold extract_result
    rw [ht]
    cases j with
    | obj fs => exact absurd rfl (hno fs)
    | null => simp [Json.truthy] at ht
    | bool b => rfl
    | num n => rfl
    | str s => rfl
    | arr xs => rfl

/-- Witness for C10 (amended) at concrete inputs: `None` gives the
empty dict from both helpers; an object whose `result` is a non-empty
list gives the first element; a truthy non-dict input makes the
non-scroll helper raise (`none`). -/
theorem c10_extract_result_amended_witness :
    extract_result Json.null = some (Json.obj [])
    ∧ extract_result_scroll Json.null = Json.obj []
    ∧ extract_result (Json.obj [("result", Json.arr [Json.num 5])]) = some (Json.num 5)
    ∧ extract_result (Json.arr [Json.num 1]) = none := by
  have h0 := (c10_extract_result_amended Json.null).1 (by decide)
  have h1 := (c10_extract_result_amended (Json.obj [("result", Json.arr [Json.num 5])])).2.2.2.2.1
    ([("result", Json.arr [Json.num 5])]) ([Json.num 5]) rfl (by decide) (by rfl)
  have h2 := (c10_extract_result_amended (Json.arr [Json.num 1])).2.2.2.2.2.2.2
    (by decide) (fun fs h => Json.noConfusion h)
  exact ⟨h0.1, h0.2, h1, h2⟩
